import Mathlib

/-!
Verification of the analysis-engine specification against the source of
`src/services/ultra_detailed_analysis_engine.py` (class
`UltraDetailedAnalysisEngine`).  The Python module is shallowly embedded
here: Python dict/list/str/int values are modelled by `JVal`, the three
external collaborators (search manager, content extractor, AI manager), the
progress callback and the clock are an oracle record `Collab`, and stateful
execution (clock ticks, collaborator-call trace) is explicit state passing.
Python floats never undergo arithmetic that the claims depend on; the few
float literals (`99.5`, `25.0`, `0.0`) are carried as decimal literals
(`JVal.numStr`), and request-derived numerics (`preco`, `objetivo_receita`)
are modelled as exact rationals, with `time.time()` as an integer-valued
oracle.  `time.sleep` and `logger` calls have no observable effect and are
not modelled.
-/

/-- Python/JSON values: strings, ints, float literals carried as their
decimal text (`numStr`), booleans, `None`, lists and insertion-ordered
dicts. -/
inductive JVal where
  | str (s : String)
  | int (n : Int)
  | numStr (s : String)
  | bool (b : Bool)
  | null
  | arr (xs : List JVal)
  | obj (xs : List (String × JVal))

/-- A Python dict with string keys (the engine's `data` argument and all
dict literals have string keys). -/
def Dict : Type := List (String × JVal)

/-- First value bound to `k`, scanning left to right (Python dict keys are
unique, so this is dict lookup). -/
def lookupPairs : List (String × JVal) → String → Option JVal
  | [], _ => none
  | (k, v) :: rest, key => if k = key then some v else lookupPairs rest key

/-- `d.get(k)` on a dict value. -/
def dget (d : Dict) (k : String) : Option JVal := lookupPairs d k

/-- `v[k]`-style lookup on a `JVal` known to be a dict; `none` on non-dicts
or missing keys. -/
def lookupJ : JVal → String → Option JVal
  | .obj l, k => lookupPairs l k
  | _, _ => none

/-- Python dict assignment `d[k] = v`: update the existing entry in place,
or append a new entry at the end. -/
def setPairs : List (String × JVal) → String → JVal → List (String × JVal)
  | [], key, v => [(key, v)]
  | (k, w) :: rest, key, v =>
      if k = key then (k, v) :: rest else (k, w) :: setPairs rest key v

/-- Dict assignment lifted to `JVal`; the engine only ever assigns into dict
values, so non-dicts are returned unchanged. -/
def setKeyJ : JVal → String → JVal → JVal
  | .obj l, k, v => .obj (setPairs l k v)
  | other, _, _ => other

/-- Top-level keys of a dict value, in insertion order. -/
def keysOf : JVal → List String
  | .obj l => l.map Prod.fst
  | _ => []

/-- Chained lookup `v[k1][k2]...`, `none` as soon as a step fails. -/
def getPath (v : JVal) : List String → Option JVal
  | [] => some v
  | k :: rest => match lookupJ v k with
    | some w => getPath w rest
    | none => none

/-- The double-quote character. -/
def qChar : Char := Char.ofNat 34

/-- The backslash character. -/
def bsChar : Char := Char.ofNat 92

/-- The opening-brace character. -/
def lbChar : Char := Char.ofNat 123

/-- The closing-brace character. -/
def rbChar : Char := Char.ofNat 125

/-- The apostrophe character. -/
def apChar : Char := Char.ofNat 39

/-- Hex digit for `n < 16` (lowercase, as produced by Python json). -/
def hexDig (n : Nat) : Char :=
  if n < 10 then Char.ofNat (48 + n) else Char.ofNat (87 + n)

/-- Escaping of one character inside a JSON string, as done by
`json.dumps(..., ensure_ascii=False)`: quote, backslash and the control
characters are escaped, everything else (including non-ASCII) is emitted
as-is. -/
def escChar (c : Char) : List Char :=
  if c = qChar then [bsChar, qChar]
  else if c = bsChar then [bsChar, bsChar]
  else if c = Char.ofNat 10 then [bsChar, 'n']
  else if c = Char.ofNat 9 then [bsChar, 't']
  else if c = Char.ofNat 13 then [bsChar, 'r']
  else if c = Char.ofNat 8 then [bsChar, 'b']
  else if c = Char.ofNat 12 then [bsChar, 'f']
  else if c.toNat < 32 then
    [bsChar, 'u', '0', '0', hexDig (c.toNat / 16), hexDig (c.toNat % 16)]
  else [c]

/-- Concatenation of the escapings of all characters. -/
def escAll : List Char → List Char
  | [] => []
  | c :: rest => escChar c ++ escAll rest

/-- A JSON string token: quoted and escaped. -/
def jcstr (s : String) : String := String.mk (qChar :: (escAll s.data ++ [qChar]))

mutual

/-- The token pieces of `json.dumps(v, ensure_ascii=False)` (default
separators `", "` and `": "`); joining them gives the serialized text. -/
def dumpPieces : JVal → List String
  | .str s => [jcstr s]
  | .int n => [toString n]
  | .numStr s => [s]
  | .bool b => [if b then "true" else "false"]
  | .null => ["null"]
  | .arr xs => "[" :: (dumpArr xs ++ ["]"])
  | .obj xs => "\x7b" :: (dumpObj xs ++ ["\x7d"])

/-- Pieces of the comma-separated serialization of list elements. -/
def dumpArr : List JVal → List String
  | [] => []
  | [x] => dumpPieces x
  | x :: y :: xs => dumpPieces x ++ (", " :: dumpArr (y :: xs))

/-- Pieces of the comma-separated serialization of dict entries. -/
def dumpObj : List (String × JVal) → List String
  | [] => []
  | [(k, v)] => jcstr k :: ": " :: dumpPieces v
  | (k, v) :: e :: xs => jcstr k :: ": " :: (dumpPieces v ++ (", " :: dumpObj (e :: xs)))
end

/-- `json.dumps(v, ensure_ascii=False)`. -/
def json_dumps (v : JVal) : String := String.join (dumpPieces v)

/-- Sum of the lengths of a list of strings. -/
def sumLens : List String → Nat
  | [] => 0
  | s :: rest => s.length + sumLens rest

/-- `len(json.dumps(v, ensure_ascii=False))`, computed without materialising
the concatenated string (see `json_dumps_length`). -/
def dumpsLen (v : JVal) : Nat := sumLens (dumpPieces v)

theorem string_length_append (s t : String) : (s ++ t).length = s.length + t.length := by
  cases s with
  | mk d₁ =>
    cases t with
    | mk d₂ => exact List.length_append d₁ d₂

theorem join_length (l : List String) : (String.join l).length = sumLens l := by
  have h : ∀ (l : List String) (s : String),
      (l.foldl (fun a b => a ++ b) s).length = s.length + sumLens l := by
    intro l
    induction l with
    | nil => intro s; simp [sumLens]
    | cons x xs ih =>
        intro s
        simp only [List.foldl, sumLens, ih (s ++ x), string_length_append]
        omega
  simpa [String.join] using h l ""

/-- `dumpsLen` agrees with the length of the real serialization. -/
theorem json_dumps_length (v : JVal) : (json_dumps v).length = dumpsLen v :=
  join_length (dumpPieces v)

/-- ASCII whitespace (the whitespace actually occurring in the engine's
strings; Python also strips further Unicode whitespace, which never occurs
here). -/
def isWsChar (c : Char) : Bool :=
  c = ' ' || c = Char.ofNat 9 || c = Char.ofNat 10 || c = Char.ofNat 13 ||
  c = Char.ofNat 11 || c = Char.ofNat 12

/-- Drop leading whitespace characters. -/
def dropWsL : List Char → List Char
  | [] => []
  | c :: rest => if isWsChar c then dropWsL rest else c :: rest

/-- Python `s.strip()` (over the ASCII whitespace class). -/
def pyStrip (s : String) : String :=
  String.mk ((dropWsL (dropWsL s.data).reverse).reverse)

/-- Whether `pat` is a prefix of `cs`. -/
def isPrefixB : List Char → List Char → Bool
  | [], _ => true
  | _ :: _, [] => false
  | p :: ps, c :: cs => p = c && isPrefixB ps cs

/-- Python `s.find(sub)`: smallest index where `sub` occurs, else `-1`. -/
def strFindAux (pat : List Char) : List Char → Nat → Int
  | [], i => if isPrefixB pat [] then Int.ofNat i else -1
  | c :: cs, i =>
      if isPrefixB pat (c :: cs) then Int.ofNat i else strFindAux pat cs (i + 1)

/-- Python `s.find(sub)`. -/
def strFind (s sub : String) : Int := strFindAux sub.data s.data 0

/-- Python `s.rfind(sub)`: largest index where `sub` occurs, else `-1`. -/
def strRfindAux (pat : List Char) : List Char → Nat → Int → Int
  | [], i, best => if isPrefixB pat [] then Int.ofNat i else best
  | c :: cs, i, best =>
      strRfindAux pat cs (i + 1) (if isPrefixB pat (c :: cs) then Int.ofNat i else best)

/-- Python `s.rfind(sub)`. -/
def strRfind (s sub : String) : Int := strRfindAux sub.data s.data 0 (-1)

/-- Python `sub in s`. -/
def strContains (s sub : String) : Bool := 0 ≤ strFind s sub

/-- Python `s[a:b]` for non-negative bounds (empty when `b ≤ a`). -/
def pySlice (s : String) (a b : Nat) : String :=
  String.mk ((s.data.drop a).take (b - a))

/-- Python `s[:b]`. -/
def pySliceTo (s : String) (b : Nat) : String := String.mk (s.data.take b)

/-- Python `s[a:]`. -/
def pySliceFrom (s : String) (a : Nat) : String := String.mk (s.data.drop a)

/-- ASCII `str.lower` (the engine lowercases segment names and search-result
titles; the claims only exercise ASCII-lowercase inputs, and non-ASCII
letters pass through unchanged here). -/
def pyLowerChar (c : Char) : Char :=
  if 65 ≤ c.toNat && c.toNat ≤ 90 then Char.ofNat (c.toNat + 32) else c

/-- Python `s.lower()` (ASCII, see `pyLowerChar`). -/
def pyLower (s : String) : String := String.mk (s.data.map pyLowerChar)

/-- Python `str.isalpha` over the ASCII letters (see `pyLowerChar`). -/
def pyIsAlphaStr (s : String) : Bool :=
  s ≠ "" && s.data.all (fun c => (65 ≤ c.toNat && c.toNat ≤ 90) || (97 ≤ c.toNat && c.toNat ≤ 122))

/-- Python `s.split()`: split on whitespace runs, discarding empties. -/
def pySplitAux : List Char → List Char → List String → List String
  | [], cur, acc =>
      (if cur.isEmpty then acc else String.mk cur.reverse :: acc).reverse
  | c :: cs, cur, acc =>
      if isWsChar c then
        pySplitAux cs [] (if cur.isEmpty then acc else String.mk cur.reverse :: acc)
      else pySplitAux cs (c :: cur) acc

/-- Python `s.split()`. -/
def pySplit (s : String) : List String := pySplitAux s.data [] []

/-- Python truthiness of a value (`if v:`); float literals are falsy exactly
for the zero spellings that occur. -/
def truthy : JVal → Bool
  | .str s => s ≠ ""
  | .int n => n ≠ 0
  | .numStr s => !(s = "0" || s = "0.0" || s = "-0.0")
  | .bool b => b
  | .null => false
  | .arr xs => !xs.isEmpty
  | .obj xs => !xs.isEmpty

/-- Python `str(v)` as used in f-strings.  Scalars follow Python exactly;
for containers this returns the JSON text (an approximation of `repr` —
the engine only ever interpolates scalar request fields, and no claim
depends on interpolating a container). -/
def pyStr : JVal → String
  | .str s => s
  | .int n => toString n
  | .numStr s => s
  | .bool b => if b then "True" else "False"
  | .null => "None"
  | v => json_dumps v

/-- Skip JSON whitespace (space, tab, newline, carriage return). -/
def skipWs : List Char → List Char
  | [] => []
  | c :: rest =>
      if c = ' ' || c = Char.ofNat 9 || c = Char.ofNat 10 || c = Char.ofNat 13 then
        skipWs rest
      else c :: rest

/-- Digits `0`..`9`. -/
def isDig (c : Char) : Bool := 48 ≤ c.toNat && c.toNat ≤ 57

/-- Split the longest digit prefix off. -/
def takeDigs : List Char → (List Char × List Char)
  | [] => ([], [])
  | c :: rest =>
      if isDig c then
        let (ds, r) := takeDigs rest
        (c :: ds, r)
      else ([], c :: rest)

/-- Numeric value of a digit list (most significant first). -/
def digsVal : List Char → Nat → Nat
  | [], acc => acc
  | c :: rest, acc => digsVal rest (acc * 10 + (c.toNat - 48))

/-- Parse a JSON number: ints become `JVal.int`; numbers with a fraction or
exponent are carried textually as `JVal.numStr` (the engine never
re-serializes a parsed float on any claim-relevant path). -/
def parseNum (cs : List Char) : Option (JVal × List Char) :=
  let (neg, cs₁) := match cs with
    | c :: rest => if c = '-' then (true, rest) else (false, cs)
    | [] => (false, [])
  match cs₁ with
  | [] => none
  | c :: _ =>
    if !isDig c then none
    else
      let (ds, cs₂) := takeDigs cs₁
      -- JSON forbids leading zeros on multi-digit integer parts
      if ds.length > 1 && ds.headD '0' = '0' then none
      else
        let intPart : Int := if neg then -(Int.ofNat (digsVal ds 0)) else Int.ofNat (digsVal ds 0)
        match cs₂ with
        | '.' :: rest =>
            let (fs, cs₃) := takeDigs rest
            if fs.isEmpty then none
            else
              match cs₃ with
              | 'e' :: _ => none -- exponents after fractions do not occur in any claim input
              | 'E' :: _ => none
              | _ =>
                let txt := (if neg then ['-'] else []) ++ ds ++ '.' :: fs
                some (.numStr (String.mk txt), cs₃)
        | 'e' :: _ => none -- bare exponents do not occur in any claim input
        | 'E' :: _ => none
        | _ => some (.int intPart, cs₂)

/-- Parse the body of a JSON string (after the opening quote): standard
escapes, raw control characters rejected as Python's strict json does. -/
def parseStrBody : Nat → List Char → Option (String × List Char)
  | 0, _ => none
  | _, [] => none
  | fuel + 1, c :: rest =>
      if c = qChar then some ("", rest)
      else if c = bsChar then
        match rest with
        | [] => none
        | e :: rest' =>
            let dec : Option Char :=
              if e = qChar then some qChar
              else if e = bsChar then some bsChar
              else if e = '/' then some '/'
              else if e = 'n' then some (Char.ofNat 10)
              else if e = 't' then some (Char.ofNat 9)
              else if e = 'r' then some (Char.ofNat 13)
              else if e = 'b' then some (Char.ofNat 8)
              else if e = 'f' then some (Char.ofNat 12)
              else none -- \uXXXX escapes do not occur in any claim input
            match dec with
            | none => none
            | some d =>
              match parseStrBody fuel rest' with
              | some (s, r) => some (String.mk (d :: s.data), r)
              | none => none
      else if c.toNat < 32 then none
      else
        match parseStrBody fuel rest with
        | some (s, r) => some (String.mk (c :: s.data), r)
        | none => none

mutual
/-- Parse one JSON value (fuel-bounded; `json_loads` supplies enough fuel
for any input). -/
def parseVal : Nat → List Char → Option (JVal × List Char)
  | 0, _ => none
  | fuel + 1, cs =>
    match skipWs cs with
    | [] => none
    | c :: rest =>
        if c = qChar then
          match parseStrBody (rest.length + 1) rest with
          | some (s, r) => some (.str s, r)
          | none => none
        else if c = lbChar then
          match skipWs rest with
          | c' :: rest' =>
              if c' = rbChar then some (.obj [], rest')
              else parseObjEntries fuel (c' :: rest') []
          | [] => none
        else if c = '[' then
          match skipWs rest with
          | ']' :: rest' => some (.arr [], rest')
          | cs' => parseArrEntries fuel cs' []
        else if isPrefixB "true".data (c :: rest) then some (.bool true, rest.drop 3)
        else if isPrefixB "false".data (c :: rest) then some (.bool false, rest.drop 4)
        else if isPrefixB "null".data (c :: rest) then some (.null, rest.drop 3)
        else parseNum (c :: rest)

/-- Parse `key: value` pairs of an object body (duplicate keys follow
Python: last value wins, first position kept). -/
def parseObjEntries : Nat → List Char → List (String × JVal) → Option (JVal × List Char)
  | 0, _, _ => none
  | fuel + 1, cs, acc =>
    match skipWs cs with
    | c :: rest =>
        if c = qChar then
          match parseStrBody (rest.length + 1) rest with
          | some (k, r₁) =>
              match skipWs r₁ with
              | ':' :: r₂ =>
                  match parseVal fuel r₂ with
                  | some (v, r₃) =>
                      let acc' := setPairs acc k v
                      match skipWs r₃ with
                      | ',' :: r₄ => parseObjEntries fuel r₄ acc'
                      | c₅ :: r₅ => if c₅ = rbChar then some (.obj acc', r₅) else none
                      | [] => none
                  | none => none
              | _ => none
          | none => none
        else none
    | [] => none

/-- Parse the comma-separated elements of an array body. -/
def parseArrEntries : Nat → List Char → List JVal → Option (JVal × List Char)
  | 0, _, _ => none
  | fuel + 1, cs, acc =>
    match parseVal fuel cs with
    | some (v, r₁) =>
        match skipWs r₁ with
        | ',' :: r₂ => parseArrEntries fuel r₂ (acc ++ [v])
        | ']' :: r₃ => some (.arr (acc ++ [v]), r₃)
        | _ => none
    | none => none
end

/-- `json.loads(s)` as a partial function: `none` exactly when Python would
raise `json.JSONDecodeError` (every call site of `json.loads` in the engine
catches precisely that error). -/
def json_loads (s : String) : Option JVal :=
  match parseVal (s.length + 1) s.data with
  | some (v, rest) => if (skipWs rest).isEmpty then some v else none
  | none => none

/-- Python exceptions that the engine's code paths can raise or catch.
`exn` stands for a generic `Exception(msg)` raised by a collaborator or the
progress callback. -/
inductive PyErr where
  | exn (msg : String)
  | valueError (msg : String)
  | typeError (msg : String)
  | zeroDivision
  | nameError (name : String)
  | keyError (key : String)
  | attrError (msg : String)
deriving DecidableEq, Repr

/-- Python `str(e)` for the exceptions above (interpolated into the
emergency analysis). -/
def errStr : PyErr → String
  | .exn m => m
  | .valueError m => m
  | .typeError m => m
  | .zeroDivision => "float division by zero"
  | .nameError n => "name \x27" ++ n ++ "\x27 is not defined"
  | .keyError k => "\x27" ++ k ++ "\x27"
  | .attrError m => m

/-- Longest decimal-digit prefix interpreted as a `Nat`, with the rest. -/
def natOfDigs (cs : List Char) : Option (Nat × List Char) :=
  let (ds, rest) := takeDigs cs
  if ds.isEmpty then none else some (digsVal ds 0, rest)

/-- Exact rational arithmetic on integer fractions (denominators are kept
positive by construction; no normalisation is needed since all engine values
stay tiny).  Mathlib's `Rat` is avoided only because its normalisation does
not reduce definitionally, which the concrete-run theorems below rely on. -/
structure Frac where
  num : Int
  den : Int

/-- Embed an integer. -/
def Frac.ofInt (n : Int) : Frac := ⟨n, 1⟩

/-- Multiplication. -/
def Frac.mul (x y : Frac) : Frac := ⟨x.num * y.num, x.den * y.den⟩

/-- Division (keeping the denominator positive; division by an exact zero is
guarded at every call site, mirroring Python's `ZeroDivisionError`). -/
def Frac.div (x y : Frac) : Frac :=
  if y.num < 0 then ⟨-(x.num * y.den), x.den * (-y.num)⟩ else ⟨x.num * y.den, x.den * y.num⟩

/-- Subtraction. -/
def Frac.sub (x y : Frac) : Frac := ⟨x.num * y.den - y.num * x.den, x.den * y.den⟩

/-- Strict order (valid for positive denominators). -/
def Frac.lt (x y : Frac) : Bool := x.num * y.den < y.num * x.den

/-- Exact zero test. -/
def Frac.isZero (x : Frac) : Bool := x.num = 0

/-- Floor. -/
def Frac.floor (x : Frac) : Int := Int.fdiv x.num x.den

/-- Negation. -/
def Frac.neg (x : Frac) : Frac := ⟨-x.num, x.den⟩

/-- Plain decimal literals `[-]digits[.digits]` as exact rationals (the only
shapes `float()` receives on claim-relevant paths). -/
def decOfChars (cs : List Char) : Option Frac :=
  let (neg, cs₁) := match cs with
    | c :: rest => if c = '-' then (true, rest) else (false, cs)
    | [] => (false, [])
  match natOfDigs cs₁ with
  | none => none
  | some (ip, rest) =>
    match rest with
    | [] => some (Frac.ofInt ((if neg then -1 else 1) * (ip : Int)))
    | '.' :: rest' =>
        match natOfDigs rest' with
        | some (fp, []) =>
            let den : Int := Int.ofNat (10 ^ (takeDigs rest').1.length)
            some ⟨(if neg then -1 else 1) * ((ip : Int) * den + (fp : Int)), den⟩
        | _ => none
    | _ => none

/-- Python `float(v)`: ints and decimal literals convert; other strings
raise `ValueError` with Python's message; booleans convert; everything else
raises `TypeError`. -/
def pyFloat : JVal → Except PyErr Frac
  | .int n => .ok (Frac.ofInt n)
  | .numStr s =>
      match decOfChars s.data with
      | some q => .ok q
      | none => .error (.valueError ("could not convert string to float: \x27" ++ s ++ "\x27"))
  | .str s =>
      match decOfChars (dropWsL (dropWsL s.data).reverse).reverse with
      | some q => .ok q
      | none => .error (.valueError ("could not convert string to float: \x27" ++ s ++ "\x27"))
  | .bool b => .ok (Frac.ofInt (if b then 1 else 0))
  | v => .error (.typeError ("float() argument must be a string or a real number, not " ++ pyStr v))

/-- Python `int(q)` on a float: truncation toward zero. -/
def pyTrunc (q : Frac) : Int :=
  if Frac.lt q (Frac.ofInt 0) then -(Frac.floor (Frac.neg q)) else Frac.floor q

/-- Round to the nearest integer, ties to even (Python float formatting;
no tie ever arises on a claim-relevant value). -/
def roundHalfEven (q : Frac) : Int :=
  let f := Frac.floor q
  let r := Frac.sub q (Frac.ofInt f)
  if Frac.lt r ⟨1, 2⟩ then f
  else if Frac.lt ⟨1, 2⟩ r then f + 1
  else if f % 2 = 0 then f else f + 1

/-- Left-pad a numeral with zeros to two digits. -/
def pad2 (n : Nat) : String := if n < 10 then "0" ++ toString n else toString n

/-- Python `f"{q:.2f}"` on the exact rational value. -/
def fmt2 (q : Frac) : String :=
  let c := roundHalfEven (Frac.mul q (Frac.ofInt 100))
  let sign := if c < 0 then "-" else ""
  let a := c.natAbs
  sign ++ toString (a / 100) ++ "." ++ pad2 (a % 100)

/-- Digits of `n`, most significant first. -/
def natDigits (n : Nat) : List Char :=
  (toString n).data

/-- Group digits in threes from the right, comma-separated. -/
def groupThrees (ds : List Char) : List Char :=
  let rev := ds.reverse
  let rec go : List Char → Nat → List Char
    | [], _ => []
    | c :: rest, k =>
        if k = 3 then c :: ',' :: go rest 1
        else c :: go rest (k + 1)
  (go rev 1).reverse

/-- Python `f"{n:,}"` for ints. -/
def fmtComma (n : Int) : String :=
  (if n < 0 then "-" else "") ++ String.mk (groupThrees (natDigits n.natAbs))

/-- A record returned by `production_search_manager.search_with_fallback`.
`relevance` models `getattr(result, "relevance_score", 0.0)` (`none` when
the attribute is absent); `timestamp` models
`result.timestamp.isoformat() if hasattr(result, "timestamp") and result.timestamp`
(`none` when absent or falsy). -/
structure SearchResult where
  title : String
  url : String
  snippet : String
  source : String
  relevance : Option JVal
  timestamp : Option String

/-- Observable collaborator calls, recorded in order. -/
inductive Ev where
  | searched (query : String)
  | extracted (url : String)
  | aiCalled (maxTokens : Nat)
  | notified (phase : Nat)
deriving DecidableEq, Repr

/-- Execution state: a tick counter feeding the clock oracles and the trace
of collaborator calls made so far. -/
structure St where
  clk : Nat
  trace : List Ev

/-- The external collaborators and ambient effects, as pure oracles.
`search`, `extract`, `ai` and the optional progress callback may raise;
`now` and `time` are the clock read at successive ticks
(`datetime.now().isoformat()` and `time.time()`, the latter integer-valued
since no claim depends on fractional timing). -/
structure Collab where
  search : String → Nat → Except PyErr (List SearchResult)
  extract : String → Except PyErr (Option String)
  ai : String → Nat → Except PyErr (Option String)
  callback : Option (Nat → String → Except PyErr Unit)
  now : Nat → String
  time : Nat → Int

/-- Stateful computations that may raise a Python exception. -/
def EM (α : Type) : Type := St → Except PyErr α × St

/-- Return. -/
def EM.pure {α : Type} (a : α) : EM α := fun st => (.ok a, st)

/-- Sequencing: an exception short-circuits but keeps the state reached. -/
def EM.bind {α β : Type} (x : EM α) (f : α → EM β) : EM β := fun st =>
  match x st with
  | (.ok a, st₁) => f a st₁
  | (.error e, st₁) => (.error e, st₁)

/-- Raise an exception. -/
def EM.raise {α : Type} (e : PyErr) : EM α := fun st => (.error e, st)

/-- `try: x except Exception: h` — every `PyErr` is an `Exception`. -/
def EM.tryAll {α : Type} (x : EM α) (h : PyErr → EM α) : EM α := fun st =>
  match x st with
  | (.error e, st₁) => h e st₁
  | ok => ok

/-- Lift a pure `Except` computation. -/
def EM.liftE {α : Type} (x : Except PyErr α) : EM α := fun st => (x, st)

/-- Lift a state-only (never-raising) computation. -/
def EM.liftP {α : Type} (x : St → α × St) : EM α := fun st =>
  let (a, st₁) := x st
  (.ok a, st₁)

/-- Record an event. -/
def logEv (st : St) (e : Ev) : St := ⟨st.clk, st.trace ++ [e]⟩

/-- Read `datetime.now().isoformat()` (one clock tick). -/
def tickNowP (C : Collab) (st : St) : String × St :=
  (C.now st.clk, ⟨st.clk + 1, st.trace⟩)

/-- Read `time.time()` (one clock tick). -/
def tickTimeP (C : Collab) (st : St) : Int × St :=
  (C.time st.clk, ⟨st.clk + 1, st.trace⟩)

/-- Call `production_search_manager.search_with_fallback(q, max_results)`. -/
def EM.callSearch (C : Collab) (q : String) (n : Nat) : EM (List SearchResult) := fun st =>
  (C.search q n, logEv st (.searched q))

/-- Call `production_content_extractor.extract_content(url)`. -/
def EM.callExtract (C : Collab) (url : String) : EM (Option String) := fun st =>
  (C.extract url, logEv st (.extracted url))

/-- Call `ai_manager.generate_analysis(prompt, max_tokens)`. -/
def EM.callAi (C : Collab) (prompt : String) (maxTokens : Nat) : EM (Option String) := fun st =>
  (C.ai prompt maxTokens, logEv st (.aiCalled maxTokens))

/-- `if progress_callback: progress_callback(n, msg)`. -/
def EM.notify (C : Collab) (n : Nat) (msg : String) : EM Unit := fun st =>
  match C.callback with
  | none => (.ok (), st)
  | some cb => (cb n msg, logEv st (.notified n))

/-- `data.get("segmento", "negócios")` — the default used by every section
builder (the research stage uses the empty-string default instead). -/
def segJ (data : Dict) : JVal := (dget data "segmento").getD (.str "negócios")

/-- `_generate_fallback_avatar` (lines 1380-1442): the hand-written avatar
substituted whenever the AI call fails, errors or does not parse. -/
def fallback_avatar (data : Dict) (ai_response : Option String) : JVal :=
  let segmento := pyStr (segJ data)
  .obj [
    ("nome_ficticio", .str ("Profissional " ++ segmento ++ " Brasileiro Típico")),
    ("perfil_demografico", .obj [
      ("idade", .str "32-48 anos - faixa de maior maturidade profissional e poder aquisitivo"),
      ("genero", .str "55% masculino, 45% feminino - distribuição equilibrada com leve predominância masculina"),
      ("renda", .str "R$ 8.000 - R$ 35.000 mensais - classe média alta consolidada"),
      ("escolaridade", .str "Superior completo - 82% têm graduação, 45% pós-graduação ou especialização"),
      ("localizacao", .str "Concentrados em São Paulo (35%), Rio de Janeiro (20%), Minas Gerais (15%), demais estados (30%)"),
      ("estado_civil", .str "68% casados ou união estável - estabilidade familiar como motivação"),
      ("filhos", .str "64% têm filhos - motivação familiar forte para crescimento profissional"),
      ("profissao", .str ("Empreendedores, profissionais liberais e gestores em " ++ segmento))
    ]),
    ("perfil_psicografico", .obj [
      ("personalidade", .str "Ambiciosos, determinados, orientados a resultados, mas frequentemente sobrecarregados e ansiosos por não conseguir escalar"),
      ("valores", .str "Liberdade financeira, reconhecimento profissional, segurança familiar, impacto social positivo, crescimento pessoal contínuo"),
      ("interesses", .str "Crescimento profissional, tecnologia, investimentos, networking, desenvolvimento pessoal, viagens, esportes, família"),
      ("estilo_vida", .str "Rotina intensa, sempre conectados, buscam eficiência e otimização constante, valorizam tempo de qualidade"),
      ("comportamento_compra", .str "Pesquisam extensivamente, comparam opções, decidem por lógica mas compram por emoção, valorizam prova social"),
      ("influenciadores", .str "Outros empreendedores de sucesso, mentores reconhecidos, especialistas do setor, cases de sucesso"),
      ("medos_profundos", .str "Fracasso público, instabilidade financeira, estagnação profissional, obsolescência tecnológica, perder oportunidades"),
      ("aspiracoes_secretas", .str "Ser autoridade reconhecida, ter liberdade total, deixar legado, impactar milhares de vidas, alcançar independência financeira")
    ]),
    ("dores_viscerais", .arr [
      .str ("Trabalhar excessivamente em " ++ segmento ++ " sem ver crescimento proporcional nos resultados financeiros"),
      .str "Sentir-se sempre correndo atrás da concorrência, nunca conseguindo ficar à frente do mercado",
      .str "Ver competidores menores crescendo mais rapidamente com menos recursos e experiência",
      .str "Não conseguir se desconectar do trabalho, mesmo nos momentos de descanso e férias familiares",
      .str "Viver com medo constante de que tudo pode desmoronar a qualquer momento",
      .str "Desperdiçar potencial em tarefas operacionais em vez de estratégicas de alto valor",
      .str "Sacrificar tempo de qualidade com família por causa das demandas constantes do negócio",
      .str "Estar sempre no limite financeiro apesar de ter um bom faturamento mensal",
      .str "Não ter controle real sobre os resultados e depender de fatores externos",
      .str "Sentir vergonha de admitir que não sabe como crescer de forma sustentável",
      .str ("Ser visto como mais um no mercado de " ++ segmento ++ ", sem diferenciação clara"),
      .str "Perder oportunidades por falta de conhecimento especializado atualizado",
      .str "Trabalhar muito mais que funcionários CLT mas ter menos segurança",
      .str "Não conseguir tirar férias reais sem se preocupar com o negócio",
      .str "Sentir que está desperdiçando anos preciosos da vida sem crescer"
    ]),
    ("desejos_secretos", .arr [
      .str ("Ser reconhecido como uma autoridade respeitada e influente no mercado de " ++ segmento),
      .str "Ter um negócio que funcione perfeitamente sem sua presença constante",
      .str "Ganhar dinheiro de forma passiva através de sistemas automatizados eficientes",
      .str ("Ser convidado para palestrar em grandes eventos e conferências de " ++ segmento),
      .str "Ter liberdade total de horários, localização e decisões estratégicas",
      .str "Deixar um legado significativo que impacte positivamente milhares de pessoas",
      .str "Alcançar segurança financeira suficiente para nunca mais se preocupar com dinheiro",
      .str "Ser visto pelos pares como alguém que realmente \x27chegou lá\x27 no mercado",
      .str "Ter recursos e conhecimento para ajudar outros a alcançarem o sucesso",
      .str "Ter tempo e recursos para realizar sonhos pessoais que foram adiados",
      .str ("Dominar completamente o mercado de " ++ segmento ++ " em sua região"),
      .str "Ser procurado pela mídia como especialista para dar opiniões",
      .str "Vender o negócio por um valor que garanta aposentadoria confortável",
      .str "Ter múltiplas fontes de renda passiva funcionando simultaneamente",
      .str "Ser mentor de outros empreendedores e deixar um legado de conhecimento"
    ]),
    ("raw_ai_response", .str (match ai_response with
      | some r => if r ≠ "" then pySliceTo r 1000 else "Avatar gerado com dados de mercado padrão"
      | none => "Avatar gerado com dados de mercado padrão"))
  ]

/-- `_generate_fallback_drivers` (lines 1444-1472). -/
def fallback_drivers (data : Dict) : JVal :=
  let segmento := pyStr (segJ data)
  .arr [
    .obj [
      ("nome", .str "Diagnóstico Brutal"),
      ("gatilho_central", .str "Confronto com a realidade atual"),
      ("definicao_visceral", .str "Forçar reconhecimento da situação real sem filtros ou justificativas"),
      ("momento_ideal", .str "Abertura - para quebrar padrão e despertar consciência"),
      ("roteiro_ativacao", .obj [
        ("pergunta_abertura", .str ("Há quanto tempo você está travado no mesmo nível em " ++ segmento ++ "?")),
        ("historia_analogia", .str ("É como um profissional de " ++ segmento ++ " que trabalha 12 horas por dia mas ganha o mesmo há 3 anos")),
        ("metafora_visual", .str "Hamster numa roda dourada - muito esforço, mesmo lugar"),
        ("comando_acao", .str "Pare de aceitar mediocridade disfarçada de esforço")
      ]),
      ("frases_ancoragem", .arr [
        .str ("Mediocridade em " ++ segmento ++ " não é destino, é escolha"),
        .str ("Seus resultados em " ++ segmento ++ " são o espelho das suas decisões"),
        .str ("Aceitar menos em " ++ segmento ++ " é roubar de si mesmo")
      ]),
      ("prova_logica", .obj [
        ("estatistica", .str ("87% dos profissionais de " ++ segmento ++ " estão presos no operacional")),
        ("caso_exemplo", .str ("Empresário de " ++ segmento ++ " que trabalhava 80h/semana e faturava o mesmo há 3 anos")),
        ("demonstracao", .str "Análise dos seus números atuais vs potencial real")
      ])
    ]
  ]

/-- `_generate_fallback_anti_objection` (lines 1474-1496). -/
def fallback_anti_objection (_data : Dict) : JVal :=
  .obj [
    ("objecoes_universais", .obj [
      ("preco", .obj [
        ("objecao", .str "Está muito caro, não tenho esse dinheiro agora"),
        ("raiz_emocional", .str "Medo de perder dinheiro e não ver retorno"),
        ("contra_ataque", .str "O que é mais caro: investir R$ X agora ou continuar perdendo R$ Y todo mês?")
      ]),
      ("tempo", .obj [
        ("objecao", .str "Não tenho tempo para implementar isso agora"),
        ("raiz_emocional", .str "Sobrecarga e medo de mais uma tarefa"),
        ("contra_ataque", .str "Você não tem tempo para crescer ou não tem tempo para continuar estagnado?")
      ])
    ]),
    ("arsenal_emergencia", .arr [
      .str "Se não for agora, quando será?",
      .str "O que você tem a perder além do que já está perdendo?",
      .str "Qual o custo de continuar como está por mais um ano?",
      .str "Você prefere tentar e talvez falhar ou não tentar e certamente continuar igual?"
    ])
  ]

/-- `_generate_fallback_visual_proofs` (lines 1498-1512). -/
def fallback_visual_proofs (_data : Dict) : JVal :=
  .arr [
    .obj [
      ("nome", .str "Demonstração de ROI Real"),
      ("conceito_alvo", .str "Provar que o investimento se paga rapidamente"),
      ("experimento", .str "Mostrar planilha com cálculo real de ROI baseado em casos anteriores"),
      ("analogia", .str "Como plantar uma árvore - investimento inicial que gera frutos por anos"),
      ("materiais", .arr [.str "Planilha de ROI", .str "Cases documentados", .str "Gráficos de crescimento"]),
      ("roteiro_completo", .str "Apresentar dados reais de clientes anteriores mostrando investimento vs retorno"),
      ("impacto_esperado", .str "Reduzir objeção de preço e criar urgência"),
      ("momento_ideal", .str "Durante apresentação da proposta")
    ]
  ]

/-- `_generate_fallback_pre_pitch` (lines 1514-1529). -/
def fallback_pre_pitch (_data : Dict) : JVal :=
  .obj [
    ("orquestracao_emocional", .obj [
      ("sequencia_psicologica", .arr [
        .obj [
          ("fase", .str "Quebra de Padrão"),
          ("objetivo", .str "Despertar atenção total"),
          ("tempo", .str "2-3 minutos"),
          ("tecnicas", .arr [.str "Pergunta disruptiva", .str "Estatística chocante"]),
          ("script_exemplo", .str "Deixe eu te fazer uma pergunta que vai mudar sua perspectiva...")
        ]
      ])
    ])
  ]

/-- `_generate_fallback_competition` (lines 1531-1571). -/
def fallback_competition (data : Dict) : JVal :=
  let segmento := pyStr (segJ data)
  .arr [
    .obj [
      ("nome", .str ("Líder de Mercado em " ++ segmento)),
      ("analise_swot", .obj [
        ("forcas", .arr [
          .str "Marca estabelecida e reconhecida no mercado",
          .str "Base de clientes consolidada e fiel",
          .str "Recursos financeiros robustos para investimentos",
          .str "Equipe experiente e especializada"
        ]),
        ("fraquezas", .arr [
          .str "Processos burocráticos que tornam adaptação lenta",
          .str "Falta de inovação e acomodação com posição atual",
          .str "Atendimento impessoal devido ao grande volume",
          .str "Preços elevados que abrem espaço para concorrentes"
        ]),
        ("oportunidades", .arr [
          .str "Nichos específicos não atendidos adequadamente",
          .str "Personalização de serviços para segmentos específicos",
          .str "Tecnologia mais avançada e user-friendly"
        ]),
        ("ameacas", .arr [
          .str "Entrada de novos players mais ágeis",
          .str "Mudanças tecnológicas disruptivas",
          .str "Mudanças regulatórias do setor"
        ])
      ]),
      ("estrategia_marketing", .str "Marketing tradicional com foco em volume e brand awareness"),
      ("posicionamento", .str "Líder estabelecido com foco em tradição e confiabilidade"),
      ("vulnerabilidades", .arr [
        .str "Lentidão na adaptação a mudanças do mercado",
        .str "Falta de personalização no atendimento",
        .str "Processos complexos e burocráticos"
      ])
    ]
  ]

/-- `_generate_positioning_strategy` (lines 728-752) — a pure dict; the
`avatar_data`/`competition_data` parameters and the local `produto`/`preco`
are never used by its body. -/
def generate_positioning_strategy (data : Dict) (_avatar_data : JVal) (_competition_data : JVal) : JVal :=
  let segmento := pyStr (segJ data)
  .obj [
    ("posicionamento_mercado", .str ("Solução premium especializada para profissionais de " ++ segmento ++ " que buscam resultados rápidos e sustentáveis, diferenciando-se pela metodologia exclusiva e suporte personalizado")),
    ("proposta_valor_unica", .str ("Transforme seu negócio em " ++ segmento ++ " com nossa metodologia comprovada que combina estratégia avançada, implementação prática e suporte contínuo para garantir resultados mensuráveis")),
    ("diferenciais_competitivos", .arr [
      .str ("Metodologia exclusiva testada especificamente no mercado brasileiro de " ++ segmento),
      .str "Suporte personalizado com acompanhamento contínuo de especialistas certificados",
      .str "Resultados mensuráveis e garantidos com métricas específicas do setor",
      .str "Comunidade exclusiva de profissionais de alto nível para networking",
      .str "Ferramentas proprietárias desenvolvidas especificamente para o segmento",
      .str "Sistema de implementação passo-a-passo com templates prontos",
      .str "Garantia de resultados ou dinheiro de volta em 90 dias"
    ]),
    ("mensagem_central", .str ("Pare de trabalhar NO negócio de " ++ segmento ++ " e comece a trabalhar PELO negócio - domine o mercado com estratégias que realmente funcionam")),
    ("tom_comunicacao", .str "Direto, confiante, baseado em resultados concretos e dados mensuráveis, com autoridade técnica mas linguagem acessível"),
    ("nicho_especifico", .str (segmento ++ " - Profissionais estabelecidos com faturamento entre R$ 50mil-500mil anuais buscando escalonamento")),
    ("estrategia_oceano_azul", .str ("Criar categoria própria de \x27Implementação Assistida em " ++ segmento ++ "\x27 focada em execução prática ao invés de apenas consultoria teórica")),
    ("ancoragem_preco", .str "Investimento que se paga em 30-60 dias com ROI comprovado de 300-500%, posicionado como investimento em crescimento, não gasto")
  ]

/-- Append `w` unless already present (insertion-ordered model of Python's
`set.add`; Python's set iteration order is unspecified, and no claim
depends on the order of `palavras_pesquisa_real`). -/
def addUnique (l : List String) (w : String) : List String :=
  if l.contains w then l else l ++ [w]

/-- Words harvested from real research results (lines 761-769): words of
`f"{title} {snippet}".lower()` longer than 3 characters and alphabetic. -/
def kwWords : List JVal → Except PyErr (List String)
  | [] => .ok []
  | r :: rest => do
      let t ← match lookupJ r "title" with
        | some t => Except.ok t
        | none => Except.error (.keyError "title")
      let s ← match lookupJ r "snippet" with
        | some s => Except.ok s
        | none => Except.error (.keyError "snippet")
      let ws := (pySplit (pyLower (pyStr t ++ " " ++ pyStr s))).filter
        (fun w => w.length > 3 && pyIsAlphaStr w)
      let tl ← kwWords rest
      .ok (ws ++ tl)

/-- `_generate_keyword_strategy` (lines 754-850). -/
def generate_keyword_strategy (data : Dict) (research_data : JVal) : Except PyErr JVal := do
  let seg := segJ data
  let segl ← match seg with
    | JVal.str s => Except.ok (pyLower s)
    | _ => Except.error (.attrError "object has no attribute \x27lower\x27")
  let kwAll ← match lookupJ research_data "resultados_detalhados" with
    | some rd =>
        if truthy rd then
          match rd with
          | .arr rs => kwWords rs
          | _ => Except.error (.typeError "object is not iterable")
        else Except.ok []
    | none => Except.ok []
  let kws := kwAll.foldl addUnique []
  .ok (.obj [
    ("palavras_primarias", .arr [
      .str segl, .str "estratégia", .str "marketing", .str "crescimento", .str "vendas",
      .str "digital", .str "consultoria", .str "negócio", .str "empresa", .str "resultado"
    ]),
    ("palavras_secundarias", .arr [
      .str "automação", .str "sistema", .str "processo", .str "otimização", .str "performance",
      .str "conversão", .str "funil", .str "lead", .str "cliente", .str "receita",
      .str "lucro", .str "roi", .str "kpi", .str "métrica", .str "análise",
      .str "relatório", .str "dashboard", .str "gestão", .str "planejamento", .str "implementação"
    ]),
    ("palavras_cauda_longa", .arr [
      .str ("como crescer no mercado de " ++ segl),
      .str ("estratégias de marketing para " ++ segl),
      .str ("como aumentar vendas em " ++ segl),
      .str ("automação para " ++ segl),
      .str ("sistema de vendas " ++ segl),
      .str ("consultoria " ++ segl ++ " especializada"),
      .str ("curso " ++ segl ++ " online"),
      .str ("treinamento " ++ segl ++ " avançado"),
      .str ("mentoria " ++ segl ++ " personalizada"),
      .str ("ferramentas " ++ segl ++ " profissionais"),
      .str ("software " ++ segl ++ " gestão"),
      .str ("plataforma " ++ segl ++ " completa"),
      .str ("solução " ++ segl ++ " integrada"),
      .str ("metodologia " ++ segl ++ " comprovada"),
      .str ("sistema " ++ segl ++ " automatizado")
    ]),
    ("intencao_busca", .obj [
      ("informacional", .arr [
        .str ("o que é " ++ segl),
        .str ("como funciona " ++ segl),
        .str ("tendências " ++ segl ++ " 2024"),
        .str ("mercado " ++ segl ++ " brasil"),
        .str ("dados " ++ segl ++ " estatísticas")
      ]),
      ("navegacional", .arr [
        .str ("empresa " ++ segl),
        .str ("especialista " ++ segl),
        .str ("consultor " ++ segl),
        .str ("curso " ++ segl),
        .str ("treinamento " ++ segl)
      ]),
      ("transacional", .arr [
        .str ("contratar " ++ segl),
        .str ("comprar " ++ segl),
        .str ("curso " ++ segl ++ " online"),
        .str ("consultoria " ++ segl),
        .str ("serviço " ++ segl)
      ])
    ]),
    ("estrategia_conteudo", .str ("Criar conteúdo educativo sobre " ++ pyStr seg ++ " focando em implementação prática, cases reais e resultados mensuráveis")),
    ("sazonalidade", .str "Maior busca no início do ano (janeiro-março) e final do ano (outubro-dezembro) quando empresas planejam investimentos"),
    ("oportunidades_seo", .str ("Pouca concorrência em nichos específicos de " ++ pyStr seg ++ " com foco em implementação prática e resultados garantidos")),
    ("palavras_pesquisa_real", .arr ((kws.take 20).map .str))
  ])

/-- `float(data.get(k, dflt)) if data.get(k) else dflt` — the defaulting
pattern used for `preco` and `objetivo_receita` (lines 855-856, 1195). -/
def floatField (data : Dict) (k : String) (dflt : Frac) : Except PyErr Frac :=
  match dget data k with
  | some v => if truthy v then pyFloat v else .ok dflt
  | none => .ok dflt

/-- `int(q / preco)` with Python's `ZeroDivisionError` on a zero divisor. -/
def divClients (q preco : Frac) : Except PyErr Int :=
  if Frac.isZero preco then .error .zeroDivision else .ok (pyTrunc (Frac.div q preco))

/-- `_generate_performance_metrics` (lines 852-917). -/
def generate_performance_metrics (data : Dict) (_avatar_data : JVal) : Except PyErr JVal := do
  let preco ← floatField data "preco" (Frac.ofInt 997)
  let objetivo ← floatField data "objetivo_receita" (Frac.ofInt 100000)
  let consClientes ← divClients (Frac.div (Frac.mul objetivo ⟨1, 2⟩) (Frac.ofInt 12)) preco
  let realClientes ← divClients (Frac.div objetivo (Frac.ofInt 12)) preco
  let otimClientes ← divClients (Frac.div (Frac.mul objetivo ⟨3, 2⟩) (Frac.ofInt 12)) preco
  .ok (.obj [
    ("kpis_principais", .arr [
      .obj [
        ("metrica", .str "Taxa de Conversão"),
        ("objetivo", .str "3-5%"),
        ("frequencia", .str "Semanal"),
        ("responsavel", .str "Equipe de Marketing")
      ],
      .obj [
        ("metrica", .str "Custo por Lead (CPL)"),
        ("objetivo", .str ("R$ " ++ fmt2 (Frac.mul preco ⟨1, 10⟩))),
        ("frequencia", .str "Diário"),
        ("responsavel", .str "Gestor de Tráfego")
      ],
      .obj [
        ("metrica", .str "Lifetime Value (LTV)"),
        ("objetivo", .str ("R$ " ++ fmt2 (Frac.mul preco (Frac.ofInt 3)))),
        ("frequencia", .str "Mensal"),
        ("responsavel", .str "Gerente Comercial")
      ],
      .obj [
        ("metrica", .str "Return on Ad Spend (ROAS)"),
        ("objetivo", .str "4:1 mínimo"),
        ("frequencia", .str "Semanal"),
        ("responsavel", .str "Gestor de Tráfego")
      ],
      .obj [
        ("metrica", .str "Net Promoter Score (NPS)"),
        ("objetivo", .str "70+ pontos"),
        ("frequencia", .str "Trimestral"),
        ("responsavel", .str "Customer Success")
      ]
    ]),
    ("projecoes_financeiras", .obj [
      ("cenario_conservador", .obj [
        ("receita_mensal", .str ("R$ " ++ fmt2 (Frac.div (Frac.mul objetivo ⟨1, 2⟩) (Frac.ofInt 12)))),
        ("clientes_mes", .int consClientes),
        ("ticket_medio", .str ("R$ " ++ fmt2 preco)),
        ("margem_lucro", .str "60%"),
        ("roi", .str "200%")
      ]),
      ("cenario_realista", .obj [
        ("receita_mensal", .str ("R$ " ++ fmt2 (Frac.div objetivo (Frac.ofInt 12)))),
        ("clientes_mes", .int realClientes),
        ("ticket_medio", .str ("R$ " ++ fmt2 preco)),
        ("margem_lucro", .str "70%"),
        ("roi", .str "350%")
      ]),
      ("cenario_otimista", .obj [
        ("receita_mensal", .str ("R$ " ++ fmt2 (Frac.div (Frac.mul objetivo ⟨3, 2⟩) (Frac.ofInt 12)))),
        ("clientes_mes", .int otimClientes),
        ("ticket_medio", .str ("R$ " ++ fmt2 preco)),
        ("margem_lucro", .str "80%"),
        ("roi", .str "500%")
      ])
    ]),
    ("roi_esperado", .str "300-500% em 12 meses com implementação correta da estratégia"),
    ("payback_investimento", .str "2-4 meses dependendo da velocidade de implementação"),
    ("lifetime_value", .str ("R$ " ++ fmt2 (Frac.mul preco (Frac.ofInt 3)) ++ " considerando recompras e upsells"))
  ])

/-- `_generate_projections` (lines 919-949) — a constant dict. -/
def generate_projections (_data : Dict) (_metrics_data : JVal) : JVal :=
  .obj [
    ("horizonte_temporal", .str "36 meses"),
    ("metodologia", .str "Análise baseada em dados históricos do setor e projeções macroeconômicas"),
    ("cenarios", .obj [
      ("conservador", .obj [
        ("probabilidade", .str "30%"),
        ("crescimento_mensal", .str "5-8%"),
        ("fatores", .arr [.str "Economia estável", .str "Concorrência moderada", .str "Implementação gradual"])
      ]),
      ("realista", .obj [
        ("probabilidade", .str "50%"),
        ("crescimento_mensal", .str "10-15%"),
        ("fatores", .arr [.str "Economia em crescimento", .str "Estratégia bem executada", .str "Market timing adequado"])
      ]),
      ("otimista", .obj [
        ("probabilidade", .str "20%"),
        ("crescimento_mensal", .str "20-30%"),
        ("fatores", .arr [.str "Economia aquecida", .str "Execução perfeita", .str "Vantagem competitiva forte"])
      ])
    ]),
    ("marcos_temporais", .obj [
      ("mes_3", .str "Validação do modelo e primeiros resultados consistentes"),
      ("mes_6", .str "Escalabilidade comprovada e processos otimizados"),
      ("mes_12", .str "Posição consolidada no mercado e crescimento sustentável"),
      ("mes_24", .str "Liderança no nicho e expansão para mercados adjacentes"),
      ("mes_36", .str "Dominância de mercado e múltiplas fontes de receita")
    ])
  ]

/-- `_generate_action_plan` (lines 951-1020). -/
def generate_action_plan (data : Dict) (_avatar_data : JVal) (_metrics_data : JVal) : JVal :=
  let segmento := pyStr (segJ data)
  .obj [
    ("primeiros_30_dias", .obj [
      ("foco", .str "Fundação e Preparação Estratégica"),
      ("investimento", .str "R$ 15.000 - R$ 25.000"),
      ("atividades", .arr [
        .str ("Definir posicionamento único no mercado de " ++ segmento),
        .str "Criar avatar detalhado do cliente ideal com pesquisa qualitativa",
        .str "Desenvolver proposta de valor irresistível e diferenciada",
        .str "Estruturar funil de vendas completo com automações",
        .str "Criar identidade visual profissional e materiais de marketing",
        .str "Configurar sistemas de CRM e automação de marketing",
        .str "Desenvolver conteúdo educativo para atração de leads",
        .str "Implementar sistema de métricas e acompanhamento de KPIs"
      ]),
      ("entregas", .arr [
        .str "Avatar documentado e validado",
        .str "Posicionamento definido e testado",
        .str "Funil de vendas estruturado",
        .str "Materiais de marketing criados",
        .str "Sistemas configurados e funcionando"
      ])
    ]),
    ("dias_31_60", .obj [
      ("foco", .str "Lançamento e Otimização Inicial"),
      ("investimento", .str "R$ 25.000 - R$ 40.000"),
      ("atividades", .arr [
        .str ("Lançar campanhas de marketing digital para " ++ segmento),
        .str "Implementar estratégias de SEO e marketing de conteúdo",
        .str "Criar e publicar conteúdo educativo regularmente",
        .str "Configurar e otimizar campanhas de tráfego pago",
        .str "Implementar sistema de nutrição de leads automatizado",
        .str "Realizar testes A/B em landing pages e anúncios",
        .str "Desenvolver parcerias estratégicas no setor",
        .str "Monitorar e otimizar métricas de conversão"
      ]),
      ("entregas", .arr [
        .str "Campanhas ativas e otimizadas",
        .str "Conteúdo publicado consistentemente",
        .str "Primeiros clientes adquiridos",
        .str "Métricas de conversão estabelecidas",
        .str "Parcerias estratégicas firmadas"
      ])
    ]),
    ("dias_61_90", .obj [
      ("foco", .str "Escalonamento e Crescimento Sustentável"),
      ("investimento", .str "R$ 40.000 - R$ 60.000"),
      ("atividades", .arr [
        .str "Escalar campanhas que demonstraram melhor ROI",
        .str "Expandir para novos canais de marketing e vendas",
        .str "Implementar programa de indicações e afiliados",
        .str "Otimizar processos internos para maior eficiência",
        .str "Desenvolver produtos complementares e upsells",
        .str "Criar sistema de retenção e fidelização de clientes",
        .str "Expandir equipe com profissionais especializados",
        .str "Implementar sistema de customer success"
      ]),
      ("entregas", .arr [
        .str "Crescimento sustentável estabelecido",
        .str "Múltiplos canais de aquisição ativos",
        .str "Processos otimizados e escaláveis",
        .str "Equipe estruturada e treinada",
        .str "Sistema de retenção funcionando"
      ])
    ])
  ]

/-- `_generate_exclusive_insights` (lines 1022-1059): fifteen base insights
plus, when real research results exist, five research-derived ones. -/
def generate_exclusive_insights (data : Dict) (research_data : JVal) (_avatar_data : JVal) : JVal :=
  let segmento := pyStr (segJ data)
  let base : List JVal := [
    .str ("O mercado brasileiro de " ++ segmento ++ " está passando por transformação digital acelerada, criando oportunidades únicas para quem souber posicionar-se corretamente"),
    .str ("Existe uma lacuna significativa entre ferramentas disponíveis e conhecimento para implementá-las efetivamente no setor de " ++ segmento),
    .str "A maior dor dos profissionais não é falta de informação, mas excesso de informação sem direcionamento estratégico claro",
    .str ("Profissionais de " ++ segmento ++ " estão dispostos a pagar premium por simplicidade e implementação guiada passo a passo"),
    .str "O fator decisivo de compra é a combinação de confiança no método + urgência da situação atual + prova social convincente",
    .str "Prova social de pares do mesmo segmento vale 10x mais que depoimentos de clientes de segmentos diferentes",
    .str "A objeção real não é preço, mas medo de mais uma tentativa frustrada sem resultados concretos",
    .str ("Sistemas automatizados são vistos como \x27santo graal\x27 no " ++ segmento ++ ", mas poucos sabem implementar corretamente"),
    .str "A jornada de compra é longa (3-6 meses) mas a decisão final é emocional e acontece em poucos minutos",
    .str "Conteúdo educativo gratuito é porta de entrada, mas a venda acontece na demonstração prática ao vivo",
    .str ("O mercado de " ++ segmento ++ " está saturado de teoria, mas faminto por implementação prática e resultados"),
    .str "O diferencial competitivo real está na execução e suporte contínuo, não apenas na estratégia inicial",
    .str "Clientes querem ser guiados passo a passo como crianças, não apenas informados sobre o que fazer",
    .str "ROI deve ser demonstrado em semanas, não meses, para gerar confiança inicial e reduzir resistência",
    .str ("A personalização da abordagem para o nicho específico de " ++ segmento ++ " aumenta conversão em 300-500%")
  ]
  let researchPart : List JVal :=
    match lookupJ research_data "resultados_detalhados" with
    | some rd =>
        if truthy rd then
          let totalResults : Nat := match rd with | .arr rs => rs.length | _ => 0
          let totalContent : Int := match lookupJ research_data "conteudo_extraido_chars" with
            | some (.int n) => n
            | _ => 0
          let queriesLen : Nat := match lookupJ research_data "queries_executadas" with
            | some (.arr qs) => qs.length
            | _ => 0
          [
            .str ("Análise baseada em " ++ toString totalResults ++ " fontes reais de pesquisa com " ++ fmtComma totalContent ++ " caracteres de conteúdo extraído"),
            .str ("Pesquisa identificou " ++ toString queriesLen ++ " queries estratégicas específicas para " ++ segmento),
            .str "Dados coletados de múltiplas fontes garantem visão 360° do mercado sem viés de fonte única",
            .str ("Conteúdo extraído revela tendências emergentes específicas do mercado brasileiro de " ++ segmento),
            .str "Análise de concorrência baseada em dados reais de mercado, não especulações ou suposições"
          ]
        else []
    | none => []
  .arr (base ++ researchPart)

/-- `_generate_detailed_swot` (lines 1085-1122). -/
def generate_detailed_swot (data : Dict) : JVal :=
  let segmento := pyStr (segJ data)
  .obj [
    ("forcas_internas", .arr [
      .str ("Especialização profunda no mercado de " ++ segmento ++ " com conhecimento técnico avançado"),
      .str "Metodologia proprietária testada e validada com casos de sucesso documentados",
      .str "Equipe experiente com histórico comprovado de resultados no setor",
      .str "Sistemas e processos otimizados para máxima eficiência operacional",
      .str "Base de clientes satisfeitos que geram indicações orgânicas constantes",
      .str "Posicionamento premium que permite margens elevadas e seletividade de clientes",
      .str "Capacidade de adaptação rápida às mudanças do mercado e novas tecnologias"
    ]),
    ("fraquezas_internas", .arr [
      .str "Dependência inicial de poucos canais de aquisição de clientes",
      .str "Necessidade de investimento contínuo em atualização tecnológica",
      .str "Curva de aprendizado para novos membros da equipe",
      .str "Limitação geográfica inicial concentrada em grandes centros urbanos",
      .str "Necessidade de constante produção de conteúdo para manter relevância"
    ]),
    ("oportunidades_externas", .arr [
      .str ("Crescimento acelerado do mercado digital brasileiro de " ++ segmento),
      .str "Digitalização forçada pós-pandemia criou demanda reprimida por soluções",
      .str "Baixa penetração de soluções especializadas em cidades do interior",
      .str "Oportunidade de expansão para mercados latino-americanos",
      .str "Parcerias estratégicas com grandes players do setor",
      .str "Desenvolvimento de produtos complementares e ecossistema integrado"
    ]),
    ("ameacas_externas", .arr [
      .str "Entrada de grandes corporações com recursos superiores",
      .str "Mudanças regulatórias que podem impactar o setor",
      .str "Recessão econômica reduzindo orçamentos de marketing das empresas",
      .str "Commoditização do mercado com competição por preço",
      .str "Mudanças tecnológicas disruptivas que podem tornar soluções obsoletas"
    ])
  ]

/-- `_generate_market_benchmarks` (lines 1124-1156). -/
def generate_market_benchmarks (data : Dict) : JVal :=
  let segmento := pyStr (segJ data)
  .obj [
    ("metricas_setor", .obj [
      ("taxa_conversao_media", .str "2-4% para o setor"),
      ("ticket_medio_mercado", .str "R$ 500 - R$ 2.000"),
      ("ciclo_vendas_medio", .str "45-90 dias"),
      ("churn_rate_setor", .str "15-25% anual"),
      ("crescimento_mercado", .str "15-25% ao ano")
    ]),
    ("comparacao_concorrentes", .obj [
      ("lider_mercado", .obj [
        ("share", .str "25-30%"),
        ("pontos_fortes", .arr [.str "Marca consolidada", .str "Recursos financeiros", .str "Equipe grande"]),
        ("pontos_fracos", .arr [.str "Burocracia", .str "Falta de inovação", .str "Atendimento impessoal"])
      ]),
      ("challenger", .obj [
        ("share", .str "15-20%"),
        ("pontos_fortes", .arr [.str "Agilidade", .str "Inovação", .str "Preço competitivo"]),
        ("pontos_fracos", .arr [.str "Marca menos conhecida", .str "Recursos limitados"])
      ])
    ]),
    ("oportunidades_posicionamento", .arr [
      .str ("Especialização ultra-específica em nichos de " ++ segmento),
      .str "Atendimento hiper-personalizado com toque humano",
      .str "Garantias e resultados mensuráveis que concorrentes não oferecem",
      .str "Velocidade de implementação superior à média do mercado",
      .str "Suporte pós-venda diferenciado com acompanhamento contínuo"
    ])
  ]

/-- `_generate_future_trends` (lines 1158-1190). -/
def generate_future_trends (data : Dict) : JVal :=
  let segmento := pyStr (segJ data)
  .obj [
    ("tendencias_tecnologicas", .arr [
      .str ("Inteligência Artificial revolucionando processos em " ++ segmento),
      .str "Automação eliminando tarefas repetitivas e aumentando eficiência",
      .str "Realidade Virtual/Aumentada criando novas experiências de cliente",
      .str "Blockchain trazendo transparência e segurança para transações",
      .str "IoT gerando dados em tempo real para tomada de decisão"
    ]),
    ("tendencias_comportamentais", .arr [
      .str "Consumidores cada vez mais exigentes por personalização",
      .str "Preferência por experiências digitais seamless e integradas",
      .str "Valorização de sustentabilidade e responsabilidade social",
      .str "Busca por conveniência e economia de tempo",
      .str "Influência crescente de reviews e recomendações online"
    ]),
    ("tendencias_mercado", .arr [
      .str ("Consolidação do mercado de " ++ segmento ++ " com fusões e aquisições"),
      .str "Entrada de big techs criando disrupção no setor",
      .str "Regulamentação crescente exigindo compliance mais rigoroso",
      .str "Internacionalização de empresas brasileiras do setor",
      .str "Crescimento do modelo de assinatura e receita recorrente"
    ]),
    ("impactos_esperados", .obj [
      ("curto_prazo", .str "Aceleração da digitalização e automação de processos"),
      ("medio_prazo", .str "Mudança fundamental na experiência do cliente"),
      ("longo_prazo", .str "Transformação completa dos modelos de negócio tradicionais")
    ])
  ]

/-- `_generate_pricing_strategy` (lines 1192-1226). -/
def generate_pricing_strategy (data : Dict) : Except PyErr JVal := do
  let preco ← floatField data "preco" (Frac.ofInt 997)
  .ok (.obj [
    ("estrategia_atual", .obj [
      ("preco_base", .str ("R$ " ++ fmt2 preco)),
      ("posicionamento", .str "Premium com foco em valor entregue"),
      ("justificativa", .str "Preço baseado no ROI gerado, não no custo de produção")
    ]),
    ("opcoes_precificacao", .obj [
      ("entrada", .obj [
        ("preco", .str ("R$ " ++ fmt2 (Frac.mul preco ⟨3, 5⟩))),
        ("publico", .str "Iniciantes no segmento"),
        ("proposta", .str "Versão simplificada com o essencial")
      ]),
      ("premium", .obj [
        ("preco", .str ("R$ " ++ fmt2 preco)),
        ("publico", .str "Profissionais estabelecidos"),
        ("proposta", .str "Solução completa com suporte personalizado")
      ]),
      ("enterprise", .obj [
        ("preco", .str ("R$ " ++ fmt2 (Frac.mul preco (Frac.ofInt 2)))),
        ("publico", .str "Empresas de médio/grande porte"),
        ("proposta", .str "Implementação customizada com consultoria dedicada")
      ])
    ]),
    ("estrategias_psicologicas", .obj [
      ("ancoragem", .str ("Apresentar primeiro o valor de R$ " ++ fmt2 (Frac.mul preco (Frac.ofInt 3)) ++ " para ancorar percepção")),
      ("escassez", .str "Limitar vagas ou tempo de oferta para criar urgência"),
      ("prova_social", .str "Mostrar resultados de clientes que pagaram o mesmo valor"),
      ("garantia", .str "Oferecer garantia incondicional para reduzir risco percebido")
    ])
  ])

/-- `_generate_contingency_plan` (lines 1228-1270) — a constant dict. -/
def generate_contingency_plan (_data : Dict) : JVal :=
  .obj [
    ("cenarios_risco", .obj [
      ("recessao_economica", .obj [
        ("probabilidade", .str "30%"),
        ("impacto", .str "Redução de 40-60% na demanda"),
        ("acoes", .arr [
          .str "Reduzir preços temporariamente",
          .str "Focar em clientes enterprise menos sensíveis a preço",
          .str "Desenvolver produtos de entrada mais acessíveis",
          .str "Intensificar marketing de performance com ROI claro"
        ])
      ]),
      ("entrada_big_player", .obj [
        ("probabilidade", .str "25%"),
        ("impacto", .str "Pressão competitiva intensa"),
        ("acoes", .arr [
          .str "Focar em nichos ultra-específicos",
          .str "Desenvolver relacionamentos exclusivos",
          .str "Inovar constantemente em produtos e serviços",
          .str "Criar barreiras de entrada através de propriedade intelectual"
        ])
      ]),
      ("mudanca_regulatoria", .obj [
        ("probabilidade", .str "20%"),
        ("impacto", .str "Necessidade de adaptação rápida"),
        ("acoes", .arr [
          .str "Monitorar mudanças regulatórias proativamente",
          .str "Manter compliance sempre atualizado",
          .str "Desenvolver relacionamento com órgãos reguladores",
          .str "Criar flexibilidade operacional para adaptação rápida"
        ])
      ])
    ]),
    ("recursos_emergencia", .obj [
      ("financeiro", .str "Reserva de 6 meses de operação"),
      ("humano", .str "Equipe core enxuta mas versátil"),
      ("tecnologico", .str "Sistemas com backup e redundância"),
      ("comercial", .str "Diversificação de canais e produtos")
    ])
  ]

/-- `_generate_tech_roadmap` (lines 1272-1309) — a constant dict. -/
def generate_tech_roadmap (_data : Dict) : JVal :=
  .obj [
    ("fase_1_fundacao", .obj [
      ("duracao", .str "0-6 meses"),
      ("tecnologias", .arr [
        .str "CRM integrado para gestão de leads e clientes",
        .str "Plataforma de automação de marketing",
        .str "Sistema de analytics e métricas",
        .str "Landing pages otimizadas para conversão",
        .str "Chatbot para atendimento inicial"
      ]),
      ("investimento", .str "R$ 20.000 - R$ 35.000")
    ]),
    ("fase_2_crescimento", .obj [
      ("duracao", .str "6-18 meses"),
      ("tecnologias", .arr [
        .str "Inteligência Artificial para personalização",
        .str "Sistema de recomendação baseado em comportamento",
        .str "Plataforma de educação online própria",
        .str "App mobile para engajamento",
        .str "Sistema de gamificação"
      ]),
      ("investimento", .str "R$ 50.000 - R$ 100.000")
    ]),
    ("fase_3_escala", .obj [
      ("duracao", .str "18+ meses"),
      ("tecnologias", .arr [
        .str "Machine Learning para predição de churn",
        .str "Realidade Virtual para demonstrações",
        .str "Blockchain para certificações",
        .str "API ecosystem para integrações",
        .str "Data lake para business intelligence"
      ]),
      ("investimento", .str "R$ 100.000 - R$ 200.000")
    ])
  ]

/-- `_generate_risk_analysis` (lines 1311-1351) — a constant dict. -/
def generate_risk_analysis (_data : Dict) : JVal :=
  .obj [
    ("riscos_operacionais", .arr [
      .obj [
        ("risco", .str "Dependência de poucos fornecedores críticos"),
        ("probabilidade", .str "Média"),
        ("impacto", .str "Alto"),
        ("mitigacao", .str "Diversificar fornecedores e criar redundâncias")
      ],
      .obj [
        ("risco", .str "Perda de talentos-chave da equipe"),
        ("probabilidade", .str "Baixa"),
        ("impacto", .str "Alto"),
        ("mitigacao", .str "Programa de retenção e documentação de processos")
      ]
    ]),
    ("riscos_mercado", .arr [
      .obj [
        ("risco", .str "Saturação do mercado-alvo"),
        ("probabilidade", .str "Média"),
        ("impacto", .str "Médio"),
        ("mitigacao", .str "Expansão para mercados adjacentes")
      ],
      .obj [
        ("risco", .str "Mudança no comportamento do consumidor"),
        ("probabilidade", .str "Alta"),
        ("impacto", .str "Médio"),
        ("mitigacao", .str "Monitoramento contínuo e adaptação ágil")
      ]
    ]),
    ("riscos_financeiros", .arr [
      .obj [
        ("risco", .str "Fluxo de caixa negativo prolongado"),
        ("probabilidade", .str "Baixa"),
        ("impacto", .str "Alto"),
        ("mitigacao", .str "Reserva de emergência e diversificação de receita")
      ]
    ])
  ]

/-- `_generate_expansion_opportunities` (lines 1353-1378). -/
def generate_expansion_opportunities (data : Dict) : JVal :=
  let segmento := pyStr (segJ data)
  .obj [
    ("expansao_geografica", .obj [
      ("mercados_prioritarios", .arr [.str "São Paulo", .str "Rio de Janeiro", .str "Minas Gerais", .str "Rio Grande do Sul"]),
      ("mercados_secundarios", .arr [.str "Bahia", .str "Pernambuco", .str "Paraná", .str "Santa Catarina"]),
      ("estrategia", .str "Expansão gradual com parcerias locais")
    ]),
    ("expansao_produtos", .arr [
      .str ("Curso avançado de " ++ segmento ++ " para especialistas"),
      .str ("Consultoria personalizada em " ++ segmento),
      .str ("Software/ferramenta específica para " ++ segmento),
      .str ("Certificação profissional em " ++ segmento),
      .str ("Comunidade premium de profissionais de " ++ segmento)
    ]),
    ("expansao_canais", .arr [
      .str "Programa de afiliados e parceiros",
      .str "Marketplace de cursos online",
      .str "Parcerias com universidades e instituições",
      .str "Canal B2B para empresas",
      .str "Licenciamento de metodologia"
    ])
  ]


/-- Prompt built from source lines 246-307 (avatar), interpolated exactly as the source f-string does. -/
def mkAvatarPrompt (data : Dict) (research_context : String) : String :=
  let segmento := pyStr (segJ data)
  let dseg := pyStr ((dget data "segmento").getD JVal.null)
  let dprod := pyStr ((dget data "produto").getD (JVal.str "Não informado"))
  let dpreco := pyStr ((dget data "preco").getD (JVal.str "Não informado"))
  let dpub := pyStr ((dget data "publico").getD (JVal.str "Não informado"))
  "
Você é um especialista em psicologia do consumidor e análise de mercado. Crie um avatar ULTRA-DETALHADO para o segmento "
  ++ segmento
  ++ ".

CONTEXTO DE PESQUISA:
"
  ++ research_context
  ++ "

DADOS DO PROJETO:
- Segmento: "
  ++ dseg
  ++ "
- Produto: "
  ++ dprod
  ++ "
- Preço: R$ "
  ++ dpreco
  ++ "
- Público: "
  ++ dpub
  ++ "

Gere um avatar EXTREMAMENTE detalhado em formato JSON:

\x7b
  \"nome_ficticio\": \"Nome representativo baseado no segmento\",
  \"perfil_demografico\": \x7b
    \"idade\": \"Faixa etária específica com dados reais\",
    \"genero\": \"Distribuição por gênero com percentuais\",
    \"renda\": \"Faixa de renda mensal específica\",
    \"escolaridade\": \"Nível educacional predominante\",
    \"localizacao\": \"Regiões geográficas principais\",
    \"estado_civil\": \"Status relacionamento típico\",
    \"filhos\": \"Situação familiar comum\",
    \"profissao\": \"Ocupações mais frequentes\"
  \x7d,
  \"perfil_psicografico\": \x7b
    \"personalidade\": \"Traços dominantes detalhados\",
    \"valores\": \"Valores e crenças principais\",
    \"interesses\": \"Hobbies e interesses específicos\",
    \"estilo_vida\": \"Como vive o dia a dia\",
    \"comportamento_compra\": \"Processo de decisão detalhado\",
    \"influenciadores\": \"Quem influencia decisões\",
    \"medos_profundos\": \"Medos relacionados ao nicho\",
    \"aspiracoes_secretas\": \"Aspirações não confessadas\"
  \x7d,
  \"dores_viscerais\": [
    \"Lista de 15 dores específicas e viscerais do segmento\"
  ],
  \"desejos_secretos\": [
    \"Lista de 15 desejos profundos e específicos\"
  ],
  \"objecoes_reais\": [
    \"Lista de 12 objeções específicas baseadas no segmento\"
  ],
  \"jornada_emocional\": \x7b
    \"consciencia\": \"Como toma consciência do problema\",
    \"consideracao\": \"Processo de avaliação de soluções\",
    \"decisao\": \"Fatores decisivos para compra\",
    \"pos_compra\": \"Experiência pós-compra esperada\"
  \x7d,
  \"linguagem_interna\": \x7b
    \"frases_dor\": [\"Frases que usa para expressar dores\"],
    \"frases_desejo\": [\"Frases que expressa desejos\"],
    \"metaforas_comuns\": [\"Metáforas usadas no segmento\"],
    \"vocabulario_especifico\": [\"Palavras técnicas do nicho\"],
    \"tom_comunicacao\": \"Tom preferido de comunicação\"
  \x7d
\x7d

IMPORTANTE: Baseie-se nos dados de pesquisa fornecidos. Seja EXTREMAMENTE específico e detalhado.
"

/-- Prompt built from source lines 343-373 (mental drivers), interpolated exactly as the source f-string does. -/
def mkDriversPrompt (data : Dict) (avatar_data : JVal) : String :=
  let segmento := pyStr (segJ data)
  let avatarCtx := pySliceTo (json_dumps avatar_data) 2000
  "
Baseado no avatar e segmento "
  ++ segmento
  ++ ", crie 7 drivers mentais customizados em formato JSON:

AVATAR CONTEXT:
"
  ++ avatarCtx
  ++ "

Gere drivers específicos para este avatar:

[
  \x7b
    \"nome\": \"Nome do Driver Mental\",
    \"gatilho_central\": \"Gatilho emocional principal\",
    \"definicao_visceral\": \"Como funciona psicologicamente\",
    \"momento_ideal\": \"Quando usar no processo de vendas\",
    \"roteiro_ativacao\": \x7b
      \"pergunta_abertura\": \"Pergunta para ativar o driver\",
      \"historia_analogia\": \"História ou analogia específica\",
      \"metafora_visual\": \"Metáfora visual poderosa\",
      \"comando_acao\": \"Comando de ação específico\"
    \x7d,
    \"frases_ancoragem\": [\"Lista de frases de ancoragem\"],
    \"prova_logica\": \x7b
      \"estatistica\": \"Estatística que comprova\",
      \"caso_exemplo\": \"Caso real de exemplo\",
      \"demonstracao\": \"Como demonstrar na prática\"
    \x7d
  \x7d
]

Seja EXTREMAMENTE específico para o segmento "
  ++ segmento
  ++ ".
"

/-- Prompt built from source lines 407-456 (anti-objection), interpolated exactly as the source f-string does. -/
def mkAntiObjectionPrompt (data : Dict) (avatar_data : JVal) : String :=
  let segmento := pyStr (segJ data)
  let avatarCtx := pySliceTo (json_dumps avatar_data) 1500
  "
Baseado no avatar do segmento "
  ++ segmento
  ++ ", crie um sistema anti-objeção completo em JSON:

AVATAR:
"
  ++ avatarCtx
  ++ "

Gere sistema completo:

\x7b
  \"objecoes_universais\": \x7b
    \"preco\": \x7b
      \"objecao\": \"Objeção específica sobre preço\",
      \"raiz_emocional\": \"Raiz emocional da objeção\",
      \"contra_ataque\": \"Contra-ataque específico e poderoso\"
    \x7d,
    \"tempo\": \x7b
      \"objecao\": \"Objeção sobre falta de tempo\",
      \"raiz_emocional\": \"Raiz emocional\",
      \"contra_ataque\": \"Contra-ataque específico\"
    \x7d,
    \"confianca\": \x7b
      \"objecao\": \"Objeção sobre confiança\",
      \"raiz_emocional\": \"Raiz emocional\",
      \"contra_ataque\": \"Contra-ataque específico\"
    \x7d,
    \"necessidade\": \x7b
      \"objecao\": \"Objeção sobre necessidade\",
      \"raiz_emocional\": \"Raiz emocional\",
      \"contra_ataque\": \"Contra-ataque específico\"
    \x7d
  \x7d,
  \"objecoes_ocultas\": \x7b
    \"medo_fracasso\": \x7b
      \"perfil_tipico\": \"Perfil que tem este medo\",
      \"sinais_identificacao\": [\"Como identificar\"],
      \"contra_ataque\": \"Como neutralizar\"
    \x7d,
    \"sindrome_impostor\": \x7b
      \"perfil_tipico\": \"Perfil com síndrome do impostor\",
      \"sinais_identificacao\": [\"Sinais de identificação\"],
      \"contra_ataque\": \"Como neutralizar\"
    \x7d
  \x7d,
  \"arsenal_emergencia\": [
    \"Lista de 10 contra-ataques de emergência para objeções inesperadas\"
  ]
\x7d

Seja específico para "
  ++ segmento
  ++ ".
"

/-- Prompt built from source lines 490-512 (visual proofs), interpolated exactly as the source f-string does. -/
def mkVisualProofsPrompt (data : Dict) (avatar_data : JVal) : String :=
  let segmento := pyStr (segJ data)
  let avatarCtx := pySliceTo (json_dumps avatar_data) 1000
  "
Para o segmento "
  ++ segmento
  ++ ", crie 5 provas visuais instantâneas em formato JSON:

AVATAR:
"
  ++ avatarCtx
  ++ "

Gere provas visuais específicas:

[
  \x7b
    \"nome\": \"Nome da Prova Visual\",
    \"conceito_alvo\": \"Conceito que quer provar\",
    \"experimento\": \"Experimento ou demonstração específica\",
    \"analogia\": \"Analogia visual poderosa\",
    \"materiais\": [\"Lista de materiais necessários\"],
    \"roteiro_completo\": \"Roteiro detalhado de como executar\",
    \"impacto_esperado\": \"Impacto psicológico esperado\",
    \"momento_ideal\": \"Melhor momento para usar\"
  \x7d
]

Seja EXTREMAMENTE específico para "
  ++ segmento
  ++ ".
"

/-- Prompt built from source lines 544-599 (pre-pitch), interpolated exactly as the source f-string does. -/
def mkPrePitchPrompt (avatar_data drivers_data : JVal) : String :=
  let avatarCtx := pySliceTo (json_dumps avatar_data) 1000
  let driversCtx := pySliceTo (json_dumps drivers_data) 1000
  "
Baseado no avatar e drivers mentais, crie um sistema de pré-pitch invisível completo:

AVATAR:
"
  ++ avatarCtx
  ++ "

DRIVERS:
"
  ++ driversCtx
  ++ "

Gere sistema completo em JSON:

\x7b
  \"orquestracao_emocional\": \x7b
    \"sequencia_psicologica\": [
      \x7b
        \"fase\": \"Quebra de Padrão\",
        \"objetivo\": \"Despertar atenção e curiosidade\",
        \"tempo\": \"2-3 minutos\",
        \"tecnicas\": [\"Lista de técnicas específicas\"],
        \"script_exemplo\": \"Script detalhado de exemplo\"
      \x7d,
      \x7b
        \"fase\": \"Amplificação de Dor\",
        \"objetivo\": \"Intensificar consciência do problema\",
        \"tempo\": \"3-4 minutos\",
        \"tecnicas\": [\"Técnicas específicas\"],
        \"script_exemplo\": \"Script detalhado\"
      \x7d,
      \x7b
        \"fase\": \"Visão de Futuro\",
        \"objetivo\": \"Mostrar possibilidade de transformação\",
        \"tempo\": \"4-5 minutos\",
        \"tecnicas\": [\"Técnicas específicas\"],
        \"script_exemplo\": \"Script detalhado\"
      \x7d
    ]
  \x7d,
  \"roteiro_completo\": \x7b
    \"abertura\": \x7b
      \"tempo\": \"30 segundos\",
      \"objetivo\": \"Capturar atenção total\",
      \"script\": \"Script completo de abertura\"
    \x7d,
    \"desenvolvimento\": \x7b
      \"tempo\": \"8-10 minutos\",
      \"objetivo\": \"Construir desejo e urgência\",
      \"script\": \"Script completo de desenvolvimento\"
    \x7d,
    \"fechamento\": \x7b
      \"tempo\": \"2-3 minutos\",
      \"objetivo\": \"Preparar para pitch principal\",
      \"script\": \"Script completo de fechamento\"
    \x7d
  \x7d
\x7d
"

/-- Prompt built from source lines 669-699 (deep competition), interpolated exactly as the source f-string does. -/
def mkCompetitionPrompt (data : Dict) (concorrentes competition_context : String) : String :=
  let segmento := pyStr (segJ data)
  "
Analise a concorrência do segmento "
  ++ segmento
  ++ " baseado nos dados de pesquisa:

CONCORRENTES MENCIONADOS: "
  ++ concorrentes
  ++ "

DADOS DE PESQUISA:
"
  ++ competition_context
  ++ "

Gere análise completa em JSON:

[
  \x7b
    \"nome\": \"Nome do Concorrente Principal\",
    \"analise_swot\": \x7b
      \"forcas\": [\"Lista de 5-7 forças específicas\"],
      \"fraquezas\": [\"Lista de 5-7 fraquezas exploráveis\"],
      \"oportunidades\": [\"Lista de 3-5 oportunidades\"],
      \"ameacas\": [\"Lista de 3-5 ameaças\"]
    \x7d,
    \"estrategia_marketing\": \"Estratégia principal detalhada\",
    \"posicionamento\": \"Como se posiciona no mercado\",
    \"diferenciais\": [\"Principais diferenciais\"],
    \"vulnerabilidades\": [\"Pontos fracos específicos exploráveis\"],
    \"preco_estrategia\": \"Estratégia de precificação\",
    \"share_mercado_estimado\": \"Participação estimada\",
    \"pontos_ataque\": [\"Onde atacar estrategicamente\"]
  \x7d
]

Seja específico e baseado em dados reais do mercado "
  ++ segmento
  ++ ".
"

/-- The markdown-fence stripping repeated at each AI call site (e.g. lines
314-323): strip; if "```json" occurs, slice from after its first occurrence
to the last occurrence of "```" and strip; else likewise for a bare "```";
else leave unchanged. -/
def clean_md (response : String) : String :=
  let c := pyStrip response
  if strContains c "```json" then
    pyStrip (pySlice c ((strFind c "```json").toNat + 7) (strRfind c "```").toNat)
  else if strContains c "```" then
    pyStrip (pySlice c ((strFind c "```").toNat + 3) (strRfind c "```").toNat)
  else c

/-- Context lines of the avatar prompt (lines 240-244). -/
def ctxLines : List JVal → Except PyErr String
  | [] => .ok ""
  | r :: rest => do
      let t ← match lookupJ r "title" with
        | some t => Except.ok t
        | none => Except.error (.keyError "title")
      let s ← match lookupJ r "snippet" with
        | some s => Except.ok s
        | none => Except.error (.keyError "snippet")
      let extra := match lookupJ r "extracted_content" with
        | some ec =>
            if truthy ec then "  Conteúdo: " ++ pySliceTo (pyStr ec) 500 ++ "...\n" else ""
        | none => ""
      let tl ← ctxLines rest
      .ok ("- " ++ pyStr t ++ ": " ++ pyStr s ++ "\n" ++ extra ++ tl)

/-- The `research_context` built before the avatar prompt (lines 237-244). -/
def avatarContext (research_data : JVal) : Except PyErr String :=
  match lookupJ research_data "resultados_detalhados" with
  | some rd =>
      if truthy rd then
        match rd with
        | .arr rs => do
            let body ← ctxLines (rs.take 10)
            .ok ("DADOS DE PESQUISA REAL:\n" ++ body)
        | _ => .error (.typeError "object is not iterable")
      else .ok ""
  | none => .ok ""

/-- `_generate_archaeological_avatar` (lines 232-336): AI call, fence strip,
JSON parse; empty/missing responses and parse failures are replaced by the
fallback avatar, AI exceptions likewise. -/
def generate_archaeological_avatar (C : Collab) (data : Dict) (research_data : JVal) : EM JVal :=
  EM.bind (EM.liftE (avatarContext research_data)) fun ctx =>
  EM.tryAll
    (EM.bind (EM.callAi C (mkAvatarPrompt data ctx) 4000) fun resp =>
      match resp with
      | some r =>
          if r ≠ "" then
            match json_loads (clean_md r) with
            | some v => EM.pure v
            | none => EM.pure (fallback_avatar data (some r))
          else EM.pure (fallback_avatar data none)
      | none => EM.pure (fallback_avatar data none))
    (fun _ => EM.pure (fallback_avatar data none))

/-- `_generate_mental_drivers` (lines 338-400). -/
def generate_mental_drivers (C : Collab) (avatar_data : JVal) (data : Dict) : EM JVal :=
  EM.tryAll
    (EM.bind (EM.callAi C (mkDriversPrompt data avatar_data) 3000) fun resp =>
      match resp with
      | some r =>
          if r ≠ "" then
            match json_loads (clean_md r) with
            | some v => EM.pure v
            | none => EM.pure (fallback_drivers data)
          else EM.pure (fallback_drivers data)
      | none => EM.pure (fallback_drivers data))
    (fun _ => EM.pure (fallback_drivers data))

/-- `_generate_anti_objection_system` (lines 402-483). -/
def generate_anti_objection_system (C : Collab) (avatar_data : JVal) (data : Dict) : EM JVal :=
  EM.tryAll
    (EM.bind (EM.callAi C (mkAntiObjectionPrompt data avatar_data) 2500) fun resp =>
      match resp with
      | some r =>
          if r ≠ "" then
            match json_loads (clean_md r) with
            | some v => EM.pure v
            | none => EM.pure (fallback_anti_objection data)
          else EM.pure (fallback_anti_objection data)
      | none => EM.pure (fallback_anti_objection data))
    (fun _ => EM.pure (fallback_anti_objection data))

/-- `_generate_visual_proofs` (lines 485-539). -/
def generate_visual_proofs (C : Collab) (avatar_data : JVal) (data : Dict) : EM JVal :=
  EM.tryAll
    (EM.bind (EM.callAi C (mkVisualProofsPrompt data avatar_data) 3000) fun resp =>
      match resp with
      | some r =>
          if r ≠ "" then
            match json_loads (clean_md r) with
            | some v => EM.pure v
            | none => EM.pure (fallback_visual_proofs data)
          else EM.pure (fallback_visual_proofs data)
      | none => EM.pure (fallback_visual_proofs data))
    (fun _ => EM.pure (fallback_visual_proofs data))

/-- The structured pre-pitch dict built from a truthy response (lines
605-648). -/
def prePitchFromResponse (r : String) : JVal :=
  .obj [
    ("orquestracao_emocional", .obj [
      ("sequencia_psicologica", .arr [
        .obj [
          ("fase", .str "Quebra de Padrão"),
          ("objetivo", .str "Despertar atenção e curiosidade total"),
          ("tempo", .str "2-3 minutos"),
          ("tecnicas", .arr [.str "Pergunta disruptiva", .str "Estatística chocante", .str "História contraintuitiva"]),
          ("script_exemplo", .str (if r ≠ "" then pySliceTo r 500 else "Script personalizado baseado no avatar"))
        ],
        .obj [
          ("fase", .str "Amplificação de Dor"),
          ("objetivo", .str "Intensificar consciência do problema real"),
          ("tempo", .str "3-4 minutos"),
          ("tecnicas", .arr [.str "Diagnóstico brutal", .str "Custo invisível", .str "Comparação social"]),
          ("script_exemplo", .str (if r.length > 500 then pySlice r 500 1000 else "Script de amplificação"))
        ],
        .obj [
          ("fase", .str "Visão de Futuro"),
          ("objetivo", .str "Mostrar possibilidade de transformação"),
          ("tempo", .str "4-5 minutos"),
          ("tecnicas", .arr [.str "Ambição expandida", .str "Prova social", .str "Demonstração de resultado"]),
          ("script_exemplo", .str (if r.length > 1000 then pySlice r 1000 1500 else "Script de visão"))
        ]
      ])
    ]),
    ("roteiro_completo", .obj [
      ("abertura", .obj [
        ("tempo", .str "30 segundos"),
        ("objetivo", .str "Capturar atenção total e quebrar padrão mental"),
        ("script", .str (if r.length > 1500 then pySlice r 1500 2000 else "Abertura impactante personalizada"))
      ]),
      ("desenvolvimento", .obj [
        ("tempo", .str "8-10 minutos"),
        ("objetivo", .str "Construir desejo intenso e urgência de ação"),
        ("script", .str (if r.length > 2000 then pySlice r 2000 3000 else "Desenvolvimento completo"))
      ]),
      ("fechamento", .obj [
        ("tempo", .str "2-3 minutos"),
        ("objetivo", .str "Preparar mente para receber pitch principal"),
        ("script", .str (if r.length > 3000 then pySliceFrom r 3000 else "Fechamento estratégico"))
      ])
    ])
  ]

/-- `_generate_pre_pitch_system` (lines 541-654).  When the AI response is
falsy or the AI call raises, both the `else` branch and the `except` handler
evaluate the undefined name `data` (`_generate_fallback_pre_pitch(data)`, a
bug in the source), so a `NameError` escapes this method. -/
def generate_pre_pitch_system (C : Collab) (avatar_data drivers_data : JVal) : EM JVal :=
  EM.tryAll
    (EM.bind (EM.callAi C (mkPrePitchPrompt avatar_data drivers_data) 3500) fun resp =>
      match resp with
      | some r =>
          if r ≠ "" then EM.pure (prePitchFromResponse r)
          else EM.raise (.nameError "data")
      | none => EM.raise (.nameError "data"))
    (fun _ => EM.raise (.nameError "data"))

/-- The `competition_context` accumulation (lines 663-667). -/
def compCtxLines : List JVal → Except PyErr String
  | [] => .ok ""
  | r :: rest => do
      let t ← match lookupJ r "title" with
        | some t => Except.ok t
        | none => Except.error (.keyError "title")
      let tstr ← match t with
        | JVal.str s => Except.ok s
        | _ => Except.error (.attrError "object has no attribute \x27lower\x27")
      let line ←
        if strContains (pyLower tstr) "concorrent" || strContains (pyLower tstr) "competit" then do
          let s ← match lookupJ r "snippet" with
            | some s => Except.ok s
            | none => Except.error (.keyError "snippet")
          Except.ok ("- " ++ tstr ++ ": " ++ pyStr s ++ "\n")
        else Except.ok ""
      let tl ← compCtxLines rest
      .ok (line ++ tl)

/-- The competition context of `_analyze_deep_competition` (lines 662-667). -/
def compCtx (research_data : JVal) : Except PyErr String :=
  match lookupJ research_data "resultados_detalhados" with
  | some rd =>
      if truthy rd then
        match rd with
        | .arr rs => compCtxLines rs
        | _ => .error (.typeError "object is not iterable")
      else .ok ""
  | none => .ok ""

/-- `_analyze_deep_competition` (lines 656-726). -/
def analyze_deep_competition (C : Collab) (data : Dict) (research_data : JVal) : EM JVal :=
  let concorrentes := pyStr ((dget data "concorrentes").getD (.str ""))
  EM.bind (EM.liftE (compCtx research_data)) fun ctx =>
  EM.tryAll
    (EM.bind (EM.callAi C (mkCompetitionPrompt data concorrentes ctx) 2500) fun resp =>
      match resp with
      | some r =>
          if r ≠ "" then
            match json_loads (clean_md r) with
            | some v => EM.pure v
            | none => EM.pure (fallback_competition data)
          else EM.pure (fallback_competition data)
      | none => EM.pure (fallback_competition data))
    (fun _ => EM.pure (fallback_competition data))

/-- The strategic queries of `_perform_massive_research` (lines 159-183):
ten segment queries, plus five product queries when `produto` is truthy. -/
def buildQueries (data : Dict) : List String :=
  let segmento := pyStr ((dget data "segmento").getD (.str ""))
  let produtoJ := (dget data "produto").getD (.str "")
  let produto := pyStr produtoJ
  let base := [
    "análise mercado " ++ segmento ++ " Brasil dados estatísticas crescimento",
    "mercado " ++ segmento ++ " Brasil 2024 tendências",
    "concorrentes " ++ segmento ++ " principais players",
    "público-alvo " ++ segmento ++ " perfil demográfico",
    "preços " ++ segmento ++ " ticket médio mercado",
    "oportunidades " ++ segmento ++ " gaps mercado",
    "futuro " ++ segmento ++ " projeções crescimento",
    "cases sucesso " ++ segmento ++ " empresas brasileiras",
    "dados estatísticos " ++ segmento ++ " IBGE pesquisas",
    "investimentos " ++ segmento ++ " venture capital funding"
  ]
  base ++ (if truthy produtoJ then [
    produto ++ " mercado brasileiro análise",
    produto ++ " concorrentes principais",
    produto ++ " preço médio Brasil",
    produto ++ " público consumidor perfil",
    produto ++ " tendências futuro"
  ] else [])

/-- Conversion of one `SearchResult` into a result dict (lines 196-206);
`datetime.now()` ticks when the result does not carry a timestamp. -/
def convertResult (C : Collab) (r : SearchResult) (st : St) : JVal × St :=
  let (ts, st₁) := match r.timestamp with
    | some s => (s, st)
    | none => tickNowP C st
  (.obj [
    ("title", .str r.title),
    ("url", .str r.url),
    ("snippet", .str r.snippet),
    ("source", .str r.source),
    ("relevance_score", r.relevance.getD (.numStr "0.0")),
    ("timestamp", .str ts)
  ], st₁)

/-- Conversion of all results of one query (lines 195-206). -/
def convertAll (C : Collab) : List SearchResult → St → List JVal × St
  | [], st => ([], st)
  | r :: rest, st =>
      let (d, st₁) := convertResult C r st
      let (ds, st₂) := convertAll C rest st₁
      (d :: ds, st₂)

/-- The per-query extraction loop over the top five result dicts (lines
211-215): attach `extracted_content` when the extractor returns truthy
text; an extractor exception aborts the remainder of this query's loop
(the partial updates survive, as the dicts are aliased into the
accumulated list). -/
def extractTop (C : Collab) : List JVal → St → List JVal × Int × St
  | [], st => ([], 0, st)
  | d :: rest, st =>
      match lookupJ d "url" with
      | none => (d :: rest, 0, st)
      | some u =>
          let st₁ := logEv st (.extracted (pyStr u))
          match C.extract (pyStr u) with
          | .error _ => (d :: rest, 0, st₁)
          | .ok content =>
              let d' := match content with
                | some c => if c ≠ "" then setKeyJ d "extracted_content" (.str c) else d
                | none => d
              let add : Int := match content with
                | some c => if c ≠ "" then (c.length : Int) else 0
                | none => 0
              let (ds, tot, st₂) := extractTop C rest st₁
              (d' :: ds, add + tot, st₂)

/-- One iteration of the research loop (lines 188-221): search, convert,
extend the accumulator, extract content for the top five; any collaborator
exception is logged and the loop continues with the next query. -/
def processQuery (C : Collab) (acc : List JVal × Int) (q : String) (st : St) : (List JVal × Int) × St :=
  let st₁ := logEv st (.searched q)
  match C.search q 10 with
  | .error _ => (acc, st₁)
  | .ok results =>
      let (dicts, st₂) := convertAll C results st₁
      let (top, tot, st₃) := extractTop C (dicts.take 5) st₂
      ((acc.1 ++ (top ++ dicts.drop 5), acc.2 + tot), st₃)

/-- The query loop of `_perform_massive_research`. -/
def loopQueries (C : Collab) : List String → (List JVal × Int) → St → (List JVal × Int) × St
  | [], acc, st => (acc, st)
  | q :: qs, acc, st =>
      let (acc₁, st₁) := processQuery C acc q st
      loopQueries C qs acc₁ st₁

/-- `_perform_massive_research` (lines 156-230); `max_search_queries = 15`
caps the query list. -/
def perform_massive_research (C : Collab) (data : Dict) (st : St) : JVal × St :=
  let qex := (buildQueries data).take 15
  let (acc, st₁) := loopQueries C qex ([], 0) st
  let (ts, st₂) := tickNowP C st₁
  (.obj [
    ("queries_executadas", .arr (qex.map JVal.str)),
    ("total_queries", .int (qex.length : Int)),
    ("total_resultados", .int (acc.1.length : Int)),
    ("resultados_detalhados", .arr acc.1),
    ("conteudo_extraido_chars", .int acc.2),
    ("timestamp", .str ts)
  ], st₂)

/-- `_generate_emergency_analysis` (lines 1573-1613), evaluated in the dict
literal's order; only the keyword and metrics builders can themselves
raise. -/
def emergency_analysis (C : Collab) (data : Dict) (error : String) : EM JVal :=
  let segmento := pyStr (segJ data)
  EM.bind (EM.liftE (generate_keyword_strategy data (JVal.obj []))) fun kw =>
  EM.bind (EM.liftE (generate_performance_metrics data (JVal.obj []))) fun me =>
  EM.bind (EM.liftP (tickNowP C)) fun genAt =>
  EM.pure (.obj [
    ("avatar_ultra_detalhado", fallback_avatar data none),
    ("drivers_mentais_customizados", fallback_drivers data),
    ("sistema_anti_objecao", fallback_anti_objection data),
    ("provas_visuais_sugeridas", fallback_visual_proofs data),
    ("pre_pitch_invisivel", fallback_pre_pitch data),
    ("analise_concorrencia_detalhada", fallback_competition data),
    ("escopo", generate_positioning_strategy data (.obj []) (.arr [])),
    ("estrategia_palavras_chave", kw),
    ("metricas_performance_detalhadas", me),
    ("projecoes_cenarios", generate_projections data (.obj [])),
    ("plano_acao_detalhado", generate_action_plan data (.obj []) (.obj [])),
    ("insights_exclusivos", .arr [
      .str ("⚠️ Análise gerada em modo de emergência devido a: " ++ error),
      .str ("O mercado brasileiro de " ++ segmento ++ " apresenta oportunidades significativas"),
      .str "Recomenda-se executar nova análise com configuração completa das APIs",
      .str "Sistema funcionando em modo básico - configure APIs para análise completa"
    ]),
    ("pesquisa_web_massiva", .obj [
      ("queries_executadas", .arr []),
      ("total_queries", .int 0),
      ("total_resultados", .int 0),
      ("nota", .str "Pesquisa não realizada devido a erro no sistema")
    ]),
    ("metadata", .obj [
      ("processing_time_seconds", .int 0),
      ("generated_at", .str genAt),
      ("report_length", .int 0),
      ("quality_score", .numStr "25.0"),
      ("version", .str "2.0.0"),
      ("mode", .str "emergency"),
      ("error", .str error)
    ])
  ])

/-- Python `a[k1][k2] = v`: `KeyError` when `k1` is missing, `TypeError`
when the values are not dicts. -/
def jSetItem2 (a : JVal) (k1 k2 : String) (v : JVal) : Except PyErr JVal :=
  match a with
  | .obj _ =>
      match lookupJ a k1 with
      | some (.obj l) => .ok (setKeyJ a k1 (.obj (setPairs l k2 v)))
      | some _ => .error (.typeError "object does not support item assignment")
      | none => .error (.keyError k1)
  | _ => .error (.typeError "object is not subscriptable")

/-- `_expand_analysis_to_minimum` (lines 1061-1083): add the eight extra
sections, then record the new serialized length (computed before the
`report_length` entry itself is overwritten). -/
def expand_analysis_to_minimum (data : Dict) (analysis : JVal) : Except PyErr JVal := do
  let a₁ := setKeyJ analysis "analise_swot_detalhada" (generate_detailed_swot data)
  let a₂ := setKeyJ a₁ "benchmarks_mercado" (generate_market_benchmarks data)
  let a₃ := setKeyJ a₂ "analise_tendencias_futuras" (generate_future_trends data)
  let pr ← generate_pricing_strategy data
  let a₄ := setKeyJ a₃ "estrategia_pricing" pr
  let a₅ := setKeyJ a₄ "plano_contingencia" (generate_contingency_plan data)
  let a₆ := setKeyJ a₅ "roadmap_tecnologico" (generate_tech_roadmap data)
  let a₇ := setKeyJ a₆ "analise_riscos" (generate_risk_analysis data)
  let a₈ := setKeyJ a₇ "oportunidades_expansao" (generate_expansion_opportunities data)
  let finalLength := dumpsLen a₈
  jSetItem2 a₈ "metadata" "report_length" (.int (finalLength : Int))

/-- Lines 139-145 of `generate_gigantic_analysis`: serialize, record the
length, and expand below the 30000-character minimum (`min_report_length`). -/
def finalizeLength (data : Dict) (analysis : JVal) : Except PyErr JVal := do
  let reportLen := dumpsLen analysis
  let a₁ ← jSetItem2 analysis "metadata" "report_length" (.int (reportLen : Int))
  if reportLen < 30000 then expand_analysis_to_minimum data a₁
  else .ok a₁

/-- The final-analysis dict literal (lines 116-137). -/
def consolidate (avatar drivers anti proofs prepitch competition positioning keywords metrics projections actionPlan insights research : JVal) (ptime : Int) (genAt : String) : JVal :=
  .obj [
    ("avatar_ultra_detalhado", avatar),
    ("drivers_mentais_customizados", drivers),
    ("sistema_anti_objecao", anti),
    ("provas_visuais_sugeridas", proofs),
    ("pre_pitch_invisivel", prepitch),
    ("analise_concorrencia_detalhada", competition),
    ("escopo", positioning),
    ("estrategia_palavras_chave", keywords),
    ("metricas_performance_detalhadas", metrics),
    ("projecoes_cenarios", projections),
    ("plano_acao_detalhado", actionPlan),
    ("insights_exclusivos", insights),
    ("pesquisa_web_massiva", research),
    ("metadata", .obj [
      ("processing_time_seconds", .int ptime),
      ("generated_at", .str genAt),
      ("report_length", .int 0),
      ("quality_score", .numStr "99.5"),
      ("version", .str "2.0.0")
    ])
  ]

/-- The body of the `try` block of `generate_gigantic_analysis` (lines
42-150): the thirteen phases in order, consolidation, and the length gate. -/
def tryPhases (C : Collab) (data : Dict) (startT : Int) : EM JVal :=
  EM.bind (EM.notify C 1 "🌐 Realizando pesquisa profunda massiva...") fun _ =>
  EM.bind (EM.liftP (perform_massive_research C data)) fun research =>
  EM.bind (EM.notify C 2 "👤 Criando avatar arqueológico ultra-detalhado...") fun _ =>
  EM.bind (generate_archaeological_avatar C data research) fun avatar =>
  EM.bind (EM.notify C 3 "🧠 Gerando drivers mentais customizados...") fun _ =>
  EM.bind (generate_mental_drivers C avatar data) fun drivers =>
  EM.bind (EM.notify C 4 "🛡️ Construindo sistema anti-objeção...") fun _ =>
  EM.bind (generate_anti_objection_system C avatar data) fun anti =>
  EM.bind (EM.notify C 5 "🎭 Desenvolvendo provas visuais instantâneas...") fun _ =>
  EM.bind (generate_visual_proofs C avatar data) fun proofs =>
  EM.bind (EM.notify C 6 "🎯 Arquitetando pré-pitch invisível...") fun _ =>
  EM.bind (generate_pre_pitch_system C avatar drivers) fun prepitch =>
  EM.bind (EM.notify C 7 "⚔️ Mapeando concorrência profunda...") fun _ =>
  EM.bind (analyze_deep_competition C data research) fun competition =>
  EM.bind (EM.notify C 8 "🎯 Definindo escopo e posicionamento...") fun _ =>
  let positioning := generate_positioning_strategy data avatar competition
  EM.bind (EM.notify C 9 "🔍 Criando estratégia de palavras-chave...") fun _ =>
  EM.bind (EM.liftE (generate_keyword_strategy data research)) fun keywords =>
  EM.bind (EM.notify C 10 "📈 Calculando métricas de performance...") fun _ =>
  EM.bind (EM.liftE (generate_performance_metrics data avatar)) fun metrics =>
  EM.bind (EM.notify C 11 "🔮 Gerando projeções e cenários...") fun _ =>
  let projections := generate_projections data metrics
  EM.bind (EM.notify C 12 "📋 Criando plano de ação detalhado...") fun _ =>
  let actionPlan := generate_action_plan data avatar metrics
  EM.bind (EM.notify C 13 "✨ Consolidando insights exclusivos...") fun _ =>
  let insights := generate_exclusive_insights data research avatar
  EM.bind (EM.liftP (tickTimeP C)) fun endT =>
  EM.bind (EM.liftP (tickNowP C)) fun genAt =>
  EM.bind (EM.liftE (finalizeLength data
    (consolidate avatar drivers anti proofs prepitch competition positioning keywords
      metrics projections actionPlan insights research (endT - startT) genAt))) fun final =>
  EM.bind (EM.liftP (tickTimeP C)) fun _ =>
  EM.pure final

/-- `generate_gigantic_analysis` (lines 30-154): run the phases; any
exception is caught and answered with the emergency analysis (which can
itself raise, in which case that exception escapes to the caller). -/
def generate_gigantic_analysis (C : Collab) (data : Dict) : EM JVal :=
  EM.bind (EM.liftP (tickTimeP C)) fun startT =>
  EM.tryAll (tryPhases C data startT) (fun e => emergency_analysis C data (errStr e))

/-- Modelled from the spec (§4.4 ResponseRecoverer), as a comparison point
for claim C3 — this is the spec's described algorithm, not the code's:
strip a wrapping code fence; fail when fewer than 10 non-whitespace
characters remain; take the first `\x7b` or `[` (whichever occurs first) as
the payload start and the last occurrence of the matching closing bracket
after it as the end; slice and parse. -/
def recover_spec (rawText : String) : Option JVal :=
  let t := clean_md rawText
  if (t.data.filter (fun c => !isWsChar c)).length < 10 then none
  else
    let ib := strFind t "\x7b"
    let il := strFind t "["
    let startAndClose : Option (Nat × String) :=
      if 0 ≤ ib && (il < 0 || ib < il) then some (ib.toNat, "\x7d")
      else if 0 ≤ il then some (il.toNat, "]")
      else none
    match startAndClose with
    | none => none
    | some (start, closer) =>
        let e := strRfind t closer
        if e ≤ Int.ofNat start then none
        else json_loads (pySlice t start (e.toNat + 1))

/-- Projection: a path lookup inside a run's successful result. -/
def okPath (x : Except PyErr JVal × St) (p : List String) : Option JVal :=
  match x.1 with
  | .ok r => getPath r p
  | .error _ => none

/-- Projection: top-level keys of a run's successful result. -/
def okKeys (x : Except PyErr JVal × St) : List String :=
  match x.1 with
  | .ok r => keysOf r
  | .error _ => []

/-- Projection: serialized length of a run's successful result. -/
def okLen (x : Except PyErr JVal × St) : Nat :=
  match x.1 with
  | .ok r => dumpsLen r
  | .error _ => 0

/-- Number of occurrences of an event in a trace. -/
def countEv (l : List Ev) (e : Ev) : Nat := (l.filter (fun x => x = e)).length

/-- Boolean event membership in a trace. -/
def hasEv (l : List Ev) (e : Ev) : Bool := l.any (fun x => x = e)

/-- The fourteen top-level keys of the consolidated analysis (twelve section
keys, the research bundle, and the metadata). -/
def engineKeys : List String :=
  ["avatar_ultra_detalhado", "drivers_mentais_customizados", "sistema_anti_objecao",
   "provas_visuais_sugeridas", "pre_pitch_invisivel", "analise_concorrencia_detalhada",
   "escopo", "estrategia_palavras_chave", "metricas_performance_detalhadas",
   "projecoes_cenarios", "plano_acao_detalhado", "insights_exclusivos",
   "pesquisa_web_massiva", "metadata"]

theorem lookupPairs_setPairs_self (l : List (String × JVal)) (k : String) (v : JVal) :
    lookupPairs (setPairs l k v) k = some v := by
  induction l with
  | nil => simp [setPairs, lookupPairs]
  | cons e rest ih =>
      obtain ⟨k', w⟩ := e
      by_cases h : k' = k
      · simp [setPairs, lookupPairs, h]
      · simp [setPairs, lookupPairs, h, ih]

theorem lookupPairs_setPairs_ne (l : List (String × JVal)) (k k' : String) (v : JVal)
    (h : k' ≠ k) : lookupPairs (setPairs l k v) k' = lookupPairs l k' := by
  induction l with
  | nil => simp [setPairs, lookupPairs, if_neg (Ne.symm h)]
  | cons e rest ih =>
      obtain ⟨k₀, w⟩ := e
      by_cases h₀ : k₀ = k
      · subst h₀
        simp [setPairs, lookupPairs, if_neg (Ne.symm h)]
      · simp only [setPairs, if_neg h₀]
        by_cases h₁ : k₀ = k'
        · simp [lookupPairs, h₁]
        · simp [lookupPairs, h₁, ih]

theorem lookupJ_setKeyJ_obj_self (l : List (String × JVal)) (k : String) (v : JVal) :
    lookupJ (setKeyJ (.obj l) k v) k = some v := by
  simp [setKeyJ, lookupJ, lookupPairs_setPairs_self]

theorem lookupJ_setKeyJ_obj_ne (l : List (String × JVal)) (k k' : String) (v : JVal)
    (h : k' ≠ k) : lookupJ (setKeyJ (.obj l) k v) k' = lookupPairs l k' := by
  simp [setKeyJ, lookupJ, lookupPairs_setPairs_ne _ _ _ _ h]

theorem convertResult_trace (C : Collab) (r : SearchResult) (st : St) :
    ((convertResult C r st).2).trace = st.trace := by
  unfold convertResult
  cases r.timestamp <;> simp [tickNowP]

theorem convertAll_trace (C : Collab) (rs : List SearchResult) (st : St) :
    ((convertAll C rs st).2).trace = st.trace := by
  induction rs generalizing st with
  | nil => simp [convertAll]
  | cons r rest ih =>
      simp only [convertAll]
      rw [ih]
      exact convertResult_trace C r st

theorem extractTop_trace (C : Collab) (ds : List JVal) (st : St) :
    ∃ l, ((extractTop C ds st).2.2).trace = st.trace ++ l := by
  induction ds generalizing st with
  | nil => exact ⟨[], by simp [extractTop]⟩
  | cons d rest ih =>
      simp only [extractTop]
      cases hu : lookupJ d "url" with
      | none => exact ⟨[], by simp⟩
      | some u =>
          simp only
          cases hx : C.extract (pyStr u) with
          | error e => exact ⟨[.extracted (pyStr u)], by simp [logEv]⟩
          | ok content =>
              obtain ⟨l, hl⟩ := ih (logEv st (.extracted (pyStr u)))
              refine ⟨.extracted (pyStr u) :: l, ?_⟩
              simp only [logEv] at hl
              simp [hl, logEv]

theorem processQuery_trace (C : Collab) (acc : List JVal × Int) (q : String) (st : St) :
    ∃ l, ((processQuery C acc q st).2).trace = st.trace ++ (Ev.searched q :: l) := by
  unfold processQuery
  cases hs : C.search q 10 with
  | error e => exact ⟨[], by simp [logEv]⟩
  | ok results =>
      simp only
      obtain ⟨l, hl⟩ := extractTop_trace C ((convertAll C results (logEv st (.searched q))).1.take 5)
        (convertAll C results (logEv st (.searched q))).2
      refine ⟨l, ?_⟩
      rw [hl, convertAll_trace]
      simp [logEv]

theorem loopQueries_trace (C : Collab) (qs : List String) (acc : List JVal × Int) (st : St) :
    ∃ l, ((loopQueries C qs acc st).2).trace = st.trace ++ l := by
  induction qs generalizing acc st with
  | nil => exact ⟨[], by simp [loopQueries]⟩
  | cons q rest ih =>
      simp only [loopQueries]
      obtain ⟨l₁, h₁⟩ := processQuery_trace C acc q st
      obtain ⟨l₂, h₂⟩ := ih (processQuery C acc q st).1 (processQuery C acc q st).2
      exact ⟨(Ev.searched q :: l₁) ++ l₂, by simp [h₂, h₁]⟩

theorem loopQueries_searched (C : Collab) (qs : List String) (acc : List JVal × Int)
    (st : St) (q : String) (hq : q ∈ qs) :
    Ev.searched q ∈ ((loopQueries C qs acc st).2).trace := by
  induction qs generalizing acc st with
  | nil => cases hq
  | cons q₀ rest ih =>
      simp only [loopQueries]
      rcases List.mem_cons.mp hq with h | h
      · subst h
        obtain ⟨l₂, h₂⟩ := loopQueries_trace C rest (processQuery C acc q st).1
          (processQuery C acc q st).2
        obtain ⟨l₁, h₁⟩ := processQuery_trace C acc q st
        rw [h₂, h₁]
        simp
      · exact ih (processQuery C acc q₀ st).1 (processQuery C acc q₀ st).2 h

theorem research_searched (C : Collab) (data : Dict) (st : St) (q : String)
    (hq : q ∈ (buildQueries data).take 15) :
    Ev.searched q ∈ ((perform_massive_research C data st).2).trace := by
  unfold perform_massive_research
  simp only [tickNowP]
  exact loopQueries_searched C _ _ st q hq

set_option maxRecDepth 1000000
set_option maxHeartbeats 100000000

/-- A fresh initial state (clock at zero, empty trace). -/
def st0 : St := ⟨0, []⟩

/-- A concrete request dict with only the mandatory segment. -/
def dataT : Dict := [("segmento", JVal.str "teste")]

/-- Clock oracle: a fixed ISO timestamp. -/
def noNow : Nat → String := fun _ => "2024-01-01T00:00:00.000000"

/-- Clock oracle: `time.time()` constantly zero. -/
def noTime : Nat → Int := fun _ => 0

/-- Search collaborator returning no results. -/
def searchNone : String → Nat → Except PyErr (List SearchResult) := fun _ _ => .ok []

/-- Extractor returning no content. -/
def extractNone : String → Except PyErr (Option String) := fun _ => .ok none

/-- AI collaborator answering every prompt with the same text. -/
def aiConst (r : String) : String → Nat → Except PyErr (Option String) := fun _ _ => .ok (some r)

/-- Benign collaborators: empty search, empty extraction, AI answering the
empty JSON object, no progress callback. -/
def Cben : Collab := ⟨searchNone, extractNone, aiConst "\x7b\x7d", none, noNow, noTime⟩

/-- Collaborators whose progress callback raises `Exception("boom")`. -/
def Cem : Collab := { Cben with callback := some (fun _ _ => .error (.exn "boom")) }

/-- Collaborators whose AI answers unparseable non-JSON text. -/
def Cxx : Collab := { Cben with ai := aiConst "xx" }

/-- The run in which the very first progress notification raises. -/
def runEm : Except PyErr JVal × St := generate_gigantic_analysis Cem dataT st0

/-- The benign run (all phases succeed, every AI response parses). -/
def runBen : Except PyErr JVal × St := generate_gigantic_analysis Cben dataT st0

/-- C1 counterexample: a failure (the progress callback raising at phase 1)
is downgraded to the emergency fallback analysis and the run still returns a
report made of fabricated fallback content — the claim says every error is
terminal and no failure is downgraded to a fallback result. -/
theorem C1_counterexample :
    runEm.1.isOk = true
    ∧ okPath runEm ["avatar_ultra_detalhado"] = some (fallback_avatar dataT none)
    ∧ okPath runEm ["metadata", "mode"] = some (.str "emergency") :=
  ⟨rfl, rfl, rfl⟩

/-- C1 (amended): errors are not terminal for the run — a completion
collaborator exception during the avatar section is downgraded to the
hand-written fallback avatar and generation continues. -/
theorem C1_failure_downgraded_to_fallback (C : Collab) (data : Dict) (research : JVal)
    (st : St) (e : PyErr)
    (hr : lookupJ research "resultados_detalhados" = none)
    (ha : C.ai (mkAvatarPrompt data "") 4000 = .error e) :
    (generate_archaeological_avatar C data research st).1 = .ok (fallback_avatar data none) := by
  simp [generate_archaeological_avatar, avatarContext, hr, EM.bind, EM.liftE, EM.tryAll,
    EM.callAi, EM.pure, ha]

/-- Collaborators whose AI raises on every call. -/
def CaiDown : Collab := { Cben with ai := fun _ _ => .error (.exn "ai down") }

/-- C1 witness: the amended statement at a concrete failing AI call. -/
theorem C1_witness :
    (generate_archaeological_avatar CaiDown dataT (JVal.obj []) st0).1
      = .ok (fallback_avatar dataT none) :=
  C1_failure_downgraded_to_fallback CaiDown dataT (JVal.obj []) st0 (.exn "ai down") rfl rfl

/-- The raw AI response of the C3 counterexample: valid JSON wrapped in
commentary, which the spec's recoverer extracts but the code rejects. -/
def raw3 : String := "Claro! \x7b\x22a\x22: 1\x7d"

/-- Collaborators whose AI answers `raw3`. -/
def C3c : Collab := { Cben with ai := aiConst raw3 }

/-- C3 counterexample: on a response with surrounding commentary, the spec's
bracket-slicing recovery returns the embedded object, but the code's actual
recovery (fence stripping plus whole-string parse) substitutes the fallback
avatar instead — there is no bracket slicing, no 10-character minimum and no
MalformedModelOutputError. -/
theorem C3_counterexample :
    recover_spec raw3 = some (.obj [("a", .int 1)])
    ∧ (generate_archaeological_avatar C3c dataT (JVal.obj []) st0).1
        = .ok (fallback_avatar dataT (some raw3)) :=
  ⟨rfl, rfl⟩

/-- C3 (amended): the code's recovery strips a wrapping code fence and then
parses the entire stripped text; a parse failure substitutes the fallback
avatar (with the raw response attached) instead of raising. -/
theorem C3_recovery_is_fence_strip_then_parse (C : Collab) (data : Dict) (research : JVal)
    (st : St) (r : String)
    (hr : lookupJ research "resultados_detalhados" = none)
    (ha : C.ai (mkAvatarPrompt data "") 4000 = .ok (some r))
    (hne : r ≠ "") :
    (generate_archaeological_avatar C data research st).1
      = .ok (match json_loads (clean_md r) with
             | some v => v
             | none => fallback_avatar data (some r)) := by
  cases hj : json_loads (clean_md r) <;>
    simp [generate_archaeological_avatar, avatarContext, hr, EM.bind, EM.liftE, EM.tryAll,
      EM.callAi, EM.pure, ha, hne, hj]

/-- A seven-non-whitespace-character JSON response (shorter than the spec's
10-character minimum, still accepted by the code). -/
def r3w : String := "\x7b\x22k\x22: 2\x7d"

/-- Collaborators whose AI answers `r3w`. -/
def C3w : Collab := { Cben with ai := aiConst r3w }

/-- C3 witness: the amended statement at a concrete short parseable
response. -/
theorem C3_witness :
    (generate_archaeological_avatar C3w dataT (JVal.obj []) st0).1
      = .ok (JVal.obj [("k", .int 2)]) :=
  C3_recovery_is_fence_strip_then_parse C3w dataT (JVal.obj []) st0 r3w rfl rfl (by decide)

/-- C4 counterexample: the emergency-path report is serialized at 16904
characters — well under 30000 — yet is returned as a success; no
ReportTooShortError exists anywhere in the code. -/
theorem C4_counterexample :
    runEm.1.isOk = true ∧ okLen runEm = 16904 ∧ okLen runEm < 30000 :=
  ⟨rfl, rfl, by rw [show okLen runEm = 16904 from rfl]; decide⟩

/-- C4 (amended): a serialized report under 30000 characters does not fail —
the engine records the length, appends the eight extra static sections, and
returns the expanded report as a success (itself possibly still under
30000). -/
theorem C4_short_report_is_expanded_not_failed (l : List (String × JVal)) (data : Dict)
    (ml : List (String × JVal))
    (hm : lookupPairs l "metadata" = some (.obj ml))
    (hshort : dumpsLen (.obj l) < 30000)
    (hpr : (generate_pricing_strategy data).isOk = true) :
    (finalizeLength data (.obj l)).map (fun r =>
        ((lookupJ r "analise_swot_detalhada").isSome,
         (lookupJ r "oportunidades_expansao").isSome,
         (getPath r ["metadata", "report_length"]).isSome))
      = .ok (true, true, true) := by
  cases hpc : generate_pricing_strategy data with
  | error e => rw [hpc] at hpr; cases hpr
  | ok pr =>
      simp only [finalizeLength, jSetItem2, lookupJ, hm, setKeyJ, bind, Except.bind,
        if_pos hshort, expand_analysis_to_minimum, hpc]
      have hmeta : ∀ (L : List (String × JVal)) (v₁ v₂ v₃ v₄ v₅ v₆ v₇ v₈ : JVal),
          lookupPairs (setPairs (setPairs (setPairs (setPairs (setPairs (setPairs (setPairs
            (setPairs L "analise_swot_detalhada" v₁) "benchmarks_mercado" v₂)
            "analise_tendencias_futuras" v₃) "estrategia_pricing" v₄)
            "plano_contingencia" v₅) "roadmap_tecnologico" v₆)
            "analise_riscos" v₇) "oportunidades_expansao" v₈) "metadata"
          = lookupPairs L "metadata" := by
        intro L v₁ v₂ v₃ v₄ v₅ v₆ v₇ v₈
        rw [lookupPairs_setPairs_ne _ _ _ _ (by decide), lookupPairs_setPairs_ne _ _ _ _ (by decide),
          lookupPairs_setPairs_ne _ _ _ _ (by decide), lookupPairs_setPairs_ne _ _ _ _ (by decide),
          lookupPairs_setPairs_ne _ _ _ _ (by decide), lookupPairs_setPairs_ne _ _ _ _ (by decide),
          lookupPairs_setPairs_ne _ _ _ _ (by decide), lookupPairs_setPairs_ne _ _ _ _ (by decide)]
      rw [hmeta, lookupPairs_setPairs_self]
      have n₁ := fun (L : List (String × JVal)) v =>
        lookupPairs_setPairs_ne L "metadata" "analise_swot_detalhada" v (by decide)
      have n₂ := fun (L : List (String × JVal)) v =>
        lookupPairs_setPairs_ne L "oportunidades_expansao" "analise_swot_detalhada" v (by decide)
      have n₃ := fun (L : List (String × JVal)) v =>
        lookupPairs_setPairs_ne L "analise_riscos" "analise_swot_detalhada" v (by decide)
      have n₄ := fun (L : List (String × JVal)) v =>
        lookupPairs_setPairs_ne L "roadmap_tecnologico" "analise_swot_detalhada" v (by decide)
      have n₅ := fun (L : List (String × JVal)) v =>
        lookupPairs_setPairs_ne L "plano_contingencia" "analise_swot_detalhada" v (by decide)
      have n₆ := fun (L : List (String × JVal)) v =>
        lookupPairs_setPairs_ne L "estrategia_pricing" "analise_swot_detalhada" v (by decide)
      have n₇ := fun (L : List (String × JVal)) v =>
        lookupPairs_setPairs_ne L "analise_tendencias_futuras" "analise_swot_detalhada" v (by decide)
      have n₈ := fun (L : List (String × JVal)) v =>
        lookupPairs_setPairs_ne L "benchmarks_mercado" "analise_swot_detalhada" v (by decide)
      have n₉ := fun (L : List (String × JVal)) v =>
        lookupPairs_setPairs_ne L "metadata" "oportunidades_expansao" v (by decide)
      simp only [Except.map, lookupJ, getPath, n₁, n₂, n₃, n₄, n₅, n₆, n₇, n₈, n₉,
        lookupPairs_setPairs_self, Option.isSome]

/-- C9 counterexample input: a non-numeric `preco`. -/
def dataC9 : Dict := [("segmento", JVal.str "x"), ("preco", JVal.str "abc")]

/-- The C9 run: benign collaborators, non-numeric `preco`. -/
def runC9 : Except PyErr JVal × St := generate_gigantic_analysis Cxx dataC9 st0

/-- C9 counterexample: with `preco = "abc"` the metrics phase raises
`ValueError`, the emergency generator raises the same error again, and
`generate_gigantic_analysis` raises to its caller instead of returning an
emergency dict. -/
theorem C9_counterexample :
    runC9.1 = .error (.valueError "could not convert string to float: \x27abc\x27") :=
  rfl

/-- C4 witness: the amended statement at a concrete small analysis dict. -/
theorem C4_witness :
    (finalizeLength [] (.obj [("metadata", JVal.obj [("report_length", JVal.int 0)])])).map
        (fun r =>
          ((lookupJ r "analise_swot_detalhada").isSome,
           (lookupJ r "oportunidades_expansao").isSome,
           (getPath r ["metadata", "report_length"]).isSome))
      = .ok (true, true, true) :=
  C4_short_report_is_expanded_not_failed [("metadata", JVal.obj [("report_length", JVal.int 0)])]
    [] [("report_length", JVal.int 0)] rfl (by decide) rfl

theorem emergency_metadata (C : Collab) (data : Dict) (es : String) (st : St) (v : JVal)
    (st₂ : St) (h : emergency_analysis C data es st = (.ok v, st₂)) :
    getPath v ["metadata", "mode"] = some (.str "emergency")
    ∧ getPath v ["metadata", "quality_score"] = some (.numStr "25.0")
    ∧ getPath v ["metadata", "error"] = some (.str es) := by
  simp only [emergency_analysis, EM.bind, EM.liftE, EM.liftP, EM.pure, tickNowP] at h
  split at h
  next kw hkw =>
    split at h
    next me hme =>
      injection h with h₁ h₂
      injection h₁ with h₁
      subst h₁
      exact ⟨rfl, rfl, rfl⟩
    next e hme => cases h
  next e hkw => cases h

/-- C9 (amended): any exception during the phases is caught and answered
with the emergency analysis (mode "emergency", quality score 25.0, the
error's message recorded) — provided the emergency generation itself
succeeds, which it does not for e.g. a non-numeric `preco`. -/
theorem C9_exception_yields_emergency_dict (C : Collab) (data : Dict) (st : St) (e : PyErr)
    (st₁ : St) (v : JVal) (st₂ : St)
    (h1 : tryPhases C data (C.time st.clk) ⟨st.clk + 1, st.trace⟩ = (.error e, st₁))
    (h2 : emergency_analysis C data (errStr e) st₁ = (.ok v, st₂)) :
    generate_gigantic_analysis C data st = (.ok v, st₂)
    ∧ getPath v ["metadata", "mode"] = some (.str "emergency")
    ∧ getPath v ["metadata", "quality_score"] = some (.numStr "25.0")
    ∧ getPath v ["metadata", "error"] = some (.str (errStr e)) := by
  obtain ⟨m₁, m₂, m₃⟩ := emergency_metadata C data (errStr e) st₁ v st₂ h2
  refine ⟨?_, m₁, m₂, m₃⟩
  simp only [generate_gigantic_analysis, EM.bind, EM.liftP, EM.tryAll, tickTimeP]
  rw [h1]
  exact h2

/-- The emergency analysis of the C9 witness run. -/
def C9wEm : Except PyErr JVal × St := emergency_analysis Cem dataT "boom" ⟨1, [Ev.notified 1]⟩

/-- Its successful payload. -/
def C9wV : JVal := match C9wEm.1 with | .ok v => v | .error _ => .null

/-- C9 witness: the amended statement at the concrete callback-raising
run. -/
theorem C9_witness :
    generate_gigantic_analysis Cem dataT st0 = (.ok C9wV, C9wEm.2)
    ∧ getPath C9wV ["metadata", "mode"] = some (.str "emergency")
    ∧ getPath C9wV ["metadata", "quality_score"] = some (.numStr "25.0")
    ∧ getPath C9wV ["metadata", "error"] = some (.str "boom") :=
  C9_exception_yields_emergency_dict Cem dataT st0 (.exn "boom") ⟨1, [Ev.notified 1]⟩
    C9wV C9wEm.2 rfl rfl

/-- The ten queries generated when `segmento` is absent (silently defaulted
to the empty string). -/
def C5queries : List String :=
  ["análise mercado  Brasil dados estatísticas crescimento",
   "mercado  Brasil 2024 tendências",
   "concorrentes  principais players",
   "público-alvo  perfil demográfico",
   "preços  ticket médio mercado",
   "oportunidades  gaps mercado",
   "futuro  projeções crescimento",
   "cases sucesso  empresas brasileiras",
   "dados estatísticos  IBGE pesquisas",
   "investimentos  venture capital funding"]

/-- C5 (amended): a request without `segmento` is not rejected — the field
is silently defaulted to the empty string, the ten segment-less queries are
generated, and the search collaborator is invoked on every one of them. -/
theorem C5_missing_segment_silently_defaulted (C : Collab) (data : Dict) (st : St)
    (h1 : dget data "segmento" = none) (h2 : dget data "produto" = none) :
    lookupJ (perform_massive_research C data st).1 "queries_executadas"
      = some (.arr (C5queries.map JVal.str))
    ∧ ∀ q ∈ C5queries, Ev.searched q ∈ ((perform_massive_research C data st).2).trace := by
  have hbq : buildQueries data = C5queries := by
    unfold buildQueries
    rw [h1, h2]
    rfl
  constructor
  · unfold perform_massive_research
    rw [hbq]
    rfl
  · intro q hq
    refine research_searched C data st q ?_
    rw [hbq]
    exact hq

/-- The empty request dict. -/
def dataE : Dict := []

/-- The C5 counterexample run: empty request, unparseable AI text. -/
def run5 : Except PyErr JVal × St := generate_gigantic_analysis Cxx dataE st0

/-- C5 counterexample: with `segment` missing the pipeline does not fail
with any validation error before invoking network collaborators — it calls
the search collaborator on segment-less queries and completes successfully. -/
theorem C5_counterexample :
    run5.1.isOk = true
    ∧ hasEv run5.2.trace (.searched "análise mercado  Brasil dados estatísticas crescimento")
        = true
    ∧ okPath run5 ["pesquisa_web_massiva", "queries_executadas"]
        = some (.arr (C5queries.map JVal.str)) :=
  ⟨rfl, rfl, rfl⟩

/-- C5 witness: the amended statement at the concrete empty request. -/
theorem C5_witness :
    lookupJ (perform_massive_research Cxx dataE st0).1 "queries_executadas"
      = some (.arr (C5queries.map JVal.str))
    ∧ ∀ q ∈ C5queries, Ev.searched q ∈ ((perform_massive_research Cxx dataE st0).2).trace :=
  C5_missing_segment_silently_defaulted Cxx dataE st0 rfl rfl

/-- C8: a search-collaborator failure on a query is non-fatal to gathering —
even with the first query's search raising, the research stage completes
normally, reports the full executed-query list, and every query (including
the later ones) is still issued to the search collaborator. -/
theorem C8_per_query_failure_nonfatal (C : Collab) (data : Dict) (st : St) (e : PyErr)
    (_hfail : C.search ((buildQueries data).headD "") 10 = .error e) :
    lookupJ (perform_massive_research C data st).1 "queries_executadas"
      = some (.arr (((buildQueries data).take 15).map JVal.str))
    ∧ ∀ q ∈ (buildQueries data).take 15,
        Ev.searched q ∈ ((perform_massive_research C data st).2).trace := by
  constructor
  · unfold perform_massive_research
    rfl
  · intro q hq
    exact research_searched C data st q hq

/-- The first query of the `dataT` request. -/
def q1teste : String := "análise mercado teste Brasil dados estatísticas crescimento"

/-- Search collaborator raising on the first query, empty otherwise. -/
def Cf8 : Collab :=
  { Cben with search := fun q _ => if q = q1teste then .error (.exn "search down") else .ok [] }

/-- C8 witness: the theorem applied at a concretely failing first query. -/
theorem C8_witness :
    Cf8.search ((buildQueries dataT).headD "") 10 = .error (.exn "search down")
    ∧ (lookupJ (perform_massive_research Cf8 dataT st0).1 "queries_executadas"
        = some (.arr (((buildQueries dataT).take 15).map JVal.str))
      ∧ ∀ q ∈ (buildQueries dataT).take 15,
          Ev.searched q ∈ ((perform_massive_research Cf8 dataT st0).2).trace) :=
  ⟨rfl, C8_per_query_failure_nonfatal Cf8 dataT st0 (.exn "search down") rfl⟩

theorem countEv_append (a b : List Ev) (e : Ev) :
    countEv (a ++ b) e = countEv a e + countEv b e := by
  simp [countEv, List.filter_append]

/-- The result dict produced for one uniform search result whose page
extraction returns `content` (non-empty, so it is attached). -/
def C7dict (tt u sn sr ts content : String) : JVal :=
  .obj [("title", .str tt), ("url", .str u), ("snippet", .str sn), ("source", .str sr),
        ("relevance_score", .numStr "0.0"), ("timestamp", .str ts),
        ("extracted_content", .str content)]

theorem C7_processQuery_shape (C : Collab) (u tt sn sr ts content : String)
    (hs : ∀ q n, C.search q n = .ok [⟨tt, u, sn, sr, none, some ts⟩])
    (hx : ∀ url, C.extract url = .ok (some content)) (hc : content ≠ "")
    (acc : List JVal × Int) (q : String) (st : St) :
    processQuery C acc q st
      = ((acc.1 ++ [C7dict tt u sn sr ts content], acc.2 + (content.length : Int)),
         ⟨st.clk, st.trace ++ [.searched q, .extracted u]⟩) := by
  simp [processQuery, hs, convertAll, convertResult, extractTop, hx, hc, logEv, lookupJ,
    lookupPairs, setKeyJ, setPairs, pyStr, C7dict]

theorem C7_loop_shape (C : Collab) (u tt sn sr ts content : String)
    (hs : ∀ q n, C.search q n = .ok [⟨tt, u, sn, sr, none, some ts⟩])
    (hx : ∀ url, C.extract url = .ok (some content)) (hc : content ≠ "")
    (qs : List String) (acc : List JVal × Int) (st : St) :
    countEv ((loopQueries C qs acc st).2).trace (.extracted u)
      = countEv st.trace (.extracted u) + qs.length
    ∧ (loopQueries C qs acc st).1.2 = acc.2 + qs.length * (content.length : Int) := by
  induction qs generalizing acc st with
  | nil => simp [loopQueries]
  | cons q rest ih =>
      simp only [loopQueries, C7_processQuery_shape C u tt sn sr ts content hs hx hc]
      obtain ⟨ih₁, ih₂⟩ := ih (acc.1 ++ [C7dict tt u sn sr ts content], acc.2 + content.length)
        ⟨st.clk, st.trace ++ [.searched q, .extracted u]⟩
      constructor
      · rw [ih₁]
        simp [countEv_append, countEv, List.length_cons]
        omega
      · rw [ih₂]
        simp [List.length_cons]
        ring

/-- C7 (amended): extraction is per-query on each query's top five results
with no URL deduplication and no unique-URL cap — a URL returned by every
query is extracted once per query (ten times for ten queries) — and any
non-empty extracted text is kept, with no 200-character minimum: the total
kept content is ten times the length of whatever non-empty text the
extractor returns. -/
theorem C7_no_dedup_no_length_threshold (C : Collab) (data : Dict) (st : St)
    (u tt sn sr ts content : String)
    (hp : dget data "produto" = none)
    (hs : ∀ q n, C.search q n = .ok [⟨tt, u, sn, sr, none, some ts⟩])
    (hx : ∀ url, C.extract url = .ok (some content))
    (hc : content ≠ "") :
    countEv ((perform_massive_research C data st).2).trace (.extracted u)
      = countEv st.trace (.extracted u) + 10
    ∧ lookupJ (perform_massive_research C data st).1 "conteudo_extraido_chars"
      = some (.int (10 * (content.length : Int))) := by
  have hlen : ((buildQueries data).take 15).length = 10 := by
    unfold buildQueries
    rw [hp]
    rfl
  obtain ⟨hcount, hchars⟩ := C7_loop_shape C u tt sn sr ts content hs hx hc
    ((buildQueries data).take 15) ([], 0) st
  constructor
  · unfold perform_massive_research
    simp only [tickNowP]
    rw [hcount, hlen]
  · unfold perform_massive_research
    simp only [lookupJ, lookupPairs, if_true, String.reduceEq, reduceIte]
    rw [hchars, hlen]
    norm_num

/-- A single search result whose URL "u" is returned for every query. -/
def ru7 : SearchResult := ⟨"t", "u", "s", "src", none, some "2024-01-01T00:00:00"⟩

/-- Oracles where every query returns the same URL and extraction yields the
two-character text "ab". -/
def C7c : Collab :=
  { Cben with search := fun _ _ => .ok [ru7], extract := fun _ => .ok (some "ab") }

/-- The research bundle gathered under those oracles. -/
def res7 : JVal × St := perform_massive_research C7c dataT st0

/-- C7 counterexample: with every one of the 10 queries returning the same
URL "u" and extraction returning the 2-character text "ab", the gatherer
extracts "u" ten times (no deduplication, no 15-unique-URL cap), counts
20 extracted characters (no 200-character minimum), and stores the short
text in the first result dict. -/
theorem C7_counterexample :
    countEv res7.2.trace (.extracted "u") = 10
    ∧ lookupJ res7.1 "conteudo_extraido_chars" = some (.int 20)
    ∧ (match lookupJ res7.1 "resultados_detalhados" with
        | some (.arr (d :: _)) => lookupJ d "extracted_content"
        | _ => none) = some (.str "ab") := ⟨rfl, rfl, rfl⟩

/-- C7 witness: the amended theorem applied at the concrete oracles. -/
theorem C7_witness :
    countEv ((perform_massive_research C7c dataT st0).2).trace (Ev.extracted "u")
      = countEv st0.trace (Ev.extracted "u") + 10
    ∧ lookupJ (perform_massive_research C7c dataT st0).1 "conteudo_extraido_chars"
      = some (.int (10 * (("ab" : String).length : Int))) :=
  C7_no_dedup_no_length_threshold C7c dataT st0 "u" "t" "s" "src" "2024-01-01T00:00:00" "ab"
    rfl (fun _ _ => rfl) (fun _ => rfl) (by decide)

/-- Four search results for the first query, none for the rest. -/
def rs4 : List SearchResult :=
  [⟨"", "u1", "", "", none, some "2024-01-01T00:00:00"⟩,
   ⟨"", "u2", "", "", none, some "2024-01-01T00:00:00"⟩,
   ⟨"", "u3", "", "", none, some "2024-01-01T00:00:00"⟩,
   ⟨"", "u4", "", "", none, some "2024-01-01T00:00:00"⟩]

/-- Oracles giving exactly four search results in total and zero extracted
pages (the extractor always returns none). -/
def C2c : Collab :=
  { Cxx with search := fun q _ => if q = q1teste then .ok rs4 else .ok [] }

/-- The run on the four-result, zero-page evidence bundle. -/
def run2 : Except PyErr JVal × St := generate_gigantic_analysis C2c dataT st0

/-- C2 counterexample: an evidence bundle with only 4 search results (below
the claimed inclusive threshold of 5) and 0 extracted pages (below the
claimed 3) does not fail with EvidenceInsufficientError — the run succeeds
and returns a full quality-99.5 report. -/
theorem C2_counterexample :
    run2.1.isOk = true
    ∧ okPath run2 ["pesquisa_web_massiva", "total_resultados"] = some (.int 4)
    ∧ okPath run2 ["metadata", "quality_score"] = some (.numStr "99.5") :=
  ⟨rfl, rfl, rfl⟩

/-- C2 (amended): there is no evidence gate at all — even with zero search
results and zero extracted characters the pipeline proceeds to section
generation (the 4000-token avatar AI call is made) and returns a success
report containing the research bundle's zero counts. -/
theorem C2_no_evidence_gate :
    runBen.1.isOk = true
    ∧ okPath runBen ["pesquisa_web_massiva", "total_resultados"] = some (.int 0)
    ∧ okPath runBen ["pesquisa_web_massiva", "conteudo_extraido_chars"] = some (.int 0)
    ∧ (okPath runBen ["avatar_ultra_detalhado"]).isSome = true
    ∧ hasEv runBen.2.trace (.aiCalled 4000) = true :=
  ⟨rfl, rfl, rfl, rfl, rfl⟩

/-- Oracles whose AI returns the empty string for the 4000-token avatar call
and an unparseable "xx" for every other call. -/
def C6c : Collab :=
  { Cben with ai := fun _ mt => .ok (some (if mt = 4000 then "" else "xx")) }

/-- The run in which the avatar section receives an empty AI response. -/
def run6 : Except PyErr JVal × St := generate_gigantic_analysis C6c dataT st0

/-- C6 counterexample: an empty completion response for the avatar section
does not raise EmptyModelResponseError and does not abort the run — the
section is silently replaced by the hand-written fallback avatar and the run
returns a success report with quality_score 99.5. -/
theorem C6_counterexample :
    run6.1.isOk = true
    ∧ okPath run6 ["avatar_ultra_detalhado"] = some (fallback_avatar dataT none)
    ∧ okPath run6 ["metadata", "quality_score"] = some (.numStr "99.5") :=
  ⟨rfl, rfl, rfl⟩

/-- C6 (amended): an empty AI response for a section is not an error at all —
the avatar generator returns the static fallback avatar as a success and the
pipeline continues. -/
theorem C6_empty_response_replaced_by_fallback (C : Collab) (data : Dict)
    (research : JVal) (st : St)
    (hr : lookupJ research "resultados_detalhados" = none)
    (ha : C.ai (mkAvatarPrompt data "") 4000 = .ok (some "")) :
    (generate_archaeological_avatar C data research st).1 = .ok (fallback_avatar data none) := by
  simp [generate_archaeological_avatar, avatarContext, hr, EM.bind, EM.liftE, EM.tryAll,
    EM.callAi, EM.pure, ha]

/-- C6 witness: the amended statement at the concrete empty-response oracle. -/
theorem C6_witness :
    (generate_archaeological_avatar C6c dataT (JVal.obj []) st0).1
      = .ok (fallback_avatar dataT none) :=
  C6_empty_response_replaced_by_fallback C6c dataT (JVal.obj []) st0 rfl rfl

theorem consolidate_keys_quality (data : Dict)
    (avatar drivers anti proofs prepitch competition positioning keywords metrics projections actionPlan insights research : JVal)
    (ptime : Int) (genAt : String) (r : JVal)
    (h : finalizeLength data
        (consolidate avatar drivers anti proofs prepitch competition positioning keywords
          metrics projections actionPlan insights research ptime genAt) = .ok r) :
    (∀ k ∈ engineKeys, (lookupJ r k).isSome = true)
    ∧ getPath r ["metadata", "quality_score"] = some (.numStr "99.5") := by
  simp only [finalizeLength, consolidate, jSetItem2, lookupJ, lookupPairs, setKeyJ, setPairs,
    bind, Except.bind, String.reduceEq, reduceIte, expand_analysis_to_minimum] at h
  split at h
  · cases hpc : generate_pricing_strategy data with
    | error e => rw [hpc] at h; cases h
    | ok pr =>
        rw [hpc] at h
        simp only [lookupJ, lookupPairs, setKeyJ, setPairs, String.reduceEq, reduceIte] at h
        injection h with h
        subst h
        refine ⟨?_, rfl⟩
        intro k hk
        fin_cases hk <;> rfl
  · injection h with h
    subst h
    refine ⟨?_, rfl⟩
    intro k hk
    fin_cases hk <;> rfl

/-- A 150-character segment name: interpolated into the fallback sections it
makes the consolidated report pass the 30000-character minimum without
expansion. -/
def segBig : String := String.mk (List.replicate 150 'a')

/-- The request carrying the long segment. -/
def dataBig : Dict := [("segmento", JVal.str segBig)]

/-- A successful run long enough to skip the length expansion. -/
def runBig : Except PyErr JVal × St := generate_gigantic_analysis Cxx dataBig st0

/-- C10 counterexample: a successful (non-expanded) run returns a dict whose
key list is exactly the twelve section keys plus pesquisa_web_massiva and
metadata — 14 keys in total, so there are only 12 section keys, not the 13
the claim asserts. -/
theorem C10_counterexample :
    runBig.1.isOk = true ∧ okKeys runBig = engineKeys
    ∧ okPath runBig ["metadata", "quality_score"] = some (.numStr "99.5") := ⟨rfl, rfl, rfl⟩

/-- C10 (amended): on the non-exception path (the phase pipeline returning
ok), the returned dict always contains the twelve section keys
avatar_ultra_detalhado through insights_exclusivos plus pesquisa_web_massiva
and metadata, and metadata.quality_score is the constant 99.5, regardless of
how many per-section AI calls were replaced by fallback content. -/
theorem C10_nonexception_keys_and_quality (C : Collab) (data : Dict) (startT : Int)
    (st : St) (r : JVal) (st₂ : St)
    (h : tryPhases C data startT st = (.ok r, st₂)) :
    (∀ k ∈ engineKeys, (lookupJ r k).isSome = true)
    ∧ getPath r ["metadata", "quality_score"] = some (.numStr "99.5") := by
  simp only [tryPhases, EM.bind, EM.notify, EM.liftP, EM.liftE, EM.pure] at h
  repeat split at h
  all_goals simp only [Prod.mk.injEq] at h
  all_goals try exact Except.noConfusion h.1
  rename_i heqf
  obtain ⟨h1, -⟩ := h
  injection h1 with h1
  subst h1
  injection heqf with hf1 hf2
  apply consolidate_keys_quality
  exact hf1

/-- The benign phase run, for the C10 witness. -/
def benPhases : Except PyErr JVal × St := tryPhases Cben dataT 0 st0

/-- Its returned dict. -/
def benR : JVal := match benPhases.1 with | .ok v => v | .error _ => .obj []

/-- Its final state. -/
def benS : St := benPhases.2

/-- C10 witness: the amended statement at the concrete benign run. -/
theorem C10_witness :
    (∀ k ∈ engineKeys, (lookupJ benR k).isSome = true)
    ∧ getPath benR ["metadata", "quality_score"] = some (.numStr "99.5") :=
  C10_nonexception_keys_and_quality Cben dataT 0 st0 benR benS rfl
